import Mathlib

/-!
Verification of the Quality Scoring Engine of the metadata-quality-app
repository: a shallow embedding of `src/app/lib/metrics-evaluator.ts`
(metric evaluators and the dimension aggregator), the RDF helper layer
(`getSubjectsByType`, `getObjects`, `getObjectValue` over an n3 `Store`),
the vocabulary normalizer (`normalizeFormat`), the URL status client cache
(`checkUrlStatusCached`) and the batched URL-check API route (`PUT`).

Modelling conventions:
* An n3 `Store` is a set of quads; we embed a graph as a `List Triple`
  whose subject, predicate and object carry the `.value` strings of the
  corresponding terms.  `store.getSubjects` returns each matching subject
  once, hence the `dedup` in `getSubjectsByType`.
* JavaScript numbers on the code paths in scope only ever hold exact
  rationals (`count / total * 100`, weighted sums), so metric values and
  scores are embedded as `ℚ`.  `Math.round` on those values is `round`.
* Asynchronous collaborators (the URL Accessibility Checker's result map,
  the lazily loaded vocabulary sets) are oracles in an `EvalEnv` record:
  the evaluator only consumes `resultMap.get(url)?.accessible` and
  `SET.has(x)`, both of type `String → Bool`.
* JavaScript truthiness of a `string | null` field (`if (x)`) is
  `truthy : Option String → Bool` (null and the empty string are falsy).
-/

namespace MQA

/-- One subject–predicate–object fact of the metadata graph
(the `.value` views of an n3 quad's terms). -/
structure Triple where
  subj : String
  pred : String
  obj : String
deriving DecidableEq

/-- The in-memory metadata graph (an n3 `Store`). -/
abbrev Graph := List Triple

/-- `NAMESPACES.dcat + s` from `rdf.ts`. -/
def dcat (s : String) : String := "http://www.w3.org/ns/dcat#" ++ s

/-- `NAMESPACES.dct + s` from `rdf.ts`. -/
def dct (s : String) : String := "http://purl.org/dc/terms/" ++ s

/-- The `rdf:type` predicate used by `getSubjectsByType`. -/
def rdfTypeUri : String := "http://www.w3.org/1999/02/22-rdf-syntax-ns#type"

/-- `getSubjectsByType(store, typeUri)`: all subjects carrying an
`rdf:type typeUri` triple; `store.getSubjects` lists each subject once. -/
def getSubjectsByType (g : Graph) (typeUri : String) : List String :=
  ((g.filter (fun t => t.pred == rdfTypeUri && t.obj == typeUri)).map (·.subj)).dedup

/-- `getObjects(store, subjectUri, predicateUri)`: the object values of the
matching triples (a store holds each quad once, so no duplicates arise). -/
def getObjects (g : Graph) (subjectUri predicateUri : String) : List String :=
  (g.filter (fun t => t.subj == subjectUri && t.pred == predicateUri)).map (·.obj)

/-- `getObjectValue`: `objects.length > 0 ? objects[0] : null`. -/
def getObjectValue (g : Graph) (subjectUri predicateUri : String) : Option String :=
  (getObjects g subjectUri predicateUri).head?

/-- `store.getQuads(s, p, null, null).length > 0`. -/
def hasQuad (g : Graph) (subjectUri predicateUri : String) : Bool :=
  g.any (fun t => t.subj == subjectUri && t.pred == predicateUri)

/-- JavaScript truthiness of a `string | null` value (null and the empty
string are falsy). -/
def truthy : Option String → Bool
  | none => false
  | some s => !(s == "")

/-- Character-list prefix test (the semantics of `String.startsWith`,
spelled out structurally). -/
def charPrefixOf : List Char → List Char → Bool
  | [], _ => true
  | _ :: _, [] => false
  | p :: ps, c :: cs => p == c && charPrefixOf ps cs

/-- `a.startsWith(b)` on strings. -/
def strStartsWith (s pre : String) : Bool :=
  charPrefixOf pre.data s.data

/-- `url.startsWith('http://') || url.startsWith('https://')` (the guard on
collected access/download URLs). -/
def isHttpUrl (u : String) : Bool :=
  strStartsWith u "http://" || strStartsWith u "https://"

/-- The parameter payload of `formatMetricDetail(key, params)`. -/
inductive DetailParams where
  | noParams
  | countTotal (count total : Nat)
  | idParam (id : String)
deriving DecidableEq

/-- `formatMetricDetail` output: a translation key plus parameters
(the JSON string is a faithful encoding of this pair). -/
structure MetricDetail where
  key : String
  params : DetailParams
deriving DecidableEq

/-- The `{ value, passed, details }` record each strategy returns. -/
structure MetricEval where
  value : ℚ
  passed : Bool
  details : MetricDetail
deriving DecidableEq

/-- `MetricConfig` from `metrics-evaluator.ts`. -/
structure MetricConfig where
  id : String
  weight : ℚ
  property : String
deriving DecidableEq

/-- `MetricResult` from `metrics-evaluator.ts`. -/
structure MetricResult where
  id : String
  name : String
  value : ℚ
  weight : ℚ
  passed : Bool
  details : MetricDetail
deriving DecidableEq

/-- The external collaborators of the evaluator: the URL-check
configuration, the batch checker's per-URL `accessible` verdict
(`resultMap.get(url)?.accessible`), and the four vocabulary sets
(`SET.has`, already loaded). -/
structure EvalEnv where
  urlCheckEnabled : Bool
  probe : String → Bool
  machineReadableSet : String → Bool
  nonProprietarySet : String → Bool
  knownLicenseSet : String → Bool
  knownAccessRightsSet : String → Bool

/-- `FORMAT_LABELS` from `vocabularies.ts`. -/
def FORMAT_LABELS : List (String × String) :=
  [("RDF", "application/rdf+xml"),
   ("TURTLE", "text/turtle"),
   ("TTL", "text/turtle"),
   ("JSONLD", "application/ld+json"),
   ("JSON-LD", "application/ld+json"),
   ("NT", "application/n-triples"),
   ("NTRIPLES", "application/n-triples"),
   ("JSON", "application/json"),
   ("XML", "application/xml"),
   ("CSV", "text/csv"),
   ("PDF", "application/pdf"),
   ("HTML", "text/html"),
   ("XLSX", "application/vnd.openxmlformats-officedocument.spreadsheetml.sheet"),
   ("XLS", "application/vnd.ms-excel")]

/-- `normalizeFormat` from `vocabularies.ts`: media types pass through
lowercased, labels are looked up, everything else is lowercased. -/
def normalizeFormat (format : String) : String :=
  if format.contains '/' then format.toLower
  else
    match FORMAT_LABELS.lookup format.toUpper with
    | some m => m
    | none => format.toLower

/-- `isMachineReadable`: membership of the normalized format in the
machine-readable vocabulary set. -/
def isMachineReadable (env : EvalEnv) (format : String) : Bool :=
  env.machineReadableSet (normalizeFormat format)

/-- `isNonProprietary`: membership of the normalized format in the
non-proprietary vocabulary set. -/
def isNonProprietary (env : EvalEnv) (format : String) : Bool :=
  env.nonProprietarySet (normalizeFormat format)

/-- `isKnownLicense`: raw membership in the license vocabulary set. -/
def isKnownLicense (env : EvalEnv) (license : String) : Bool :=
  env.knownLicenseSet license

/-- `isKnownAccessRights`: raw membership in the access-rights set. -/
def isKnownAccessRights (env : EvalEnv) (accessRights : String) : Bool :=
  env.knownAccessRightsSet accessRights

-- ===== FINDABILITY METRIC EVALUATORS =====

/-- `evaluateKeywordAvailability`. -/
def evaluateKeywordAvailability (g : Graph) : MetricEval :=
  let datasets := getSubjectsByType g (dcat "Dataset")
  if datasets.length = 0 then
    ⟨0, false, ⟨"metricDetails.noDatasetsFound", .noParams⟩⟩
  else
    let datasetsWithKeywords := datasets.countP (fun d => hasQuad g d (dcat "keyword"))
    let percentage := ((datasetsWithKeywords : ℚ) / (datasets.length : ℚ)) * 100
    ⟨percentage, decide (0 < percentage),
      ⟨"metricDetails.datasetsHaveKeywords", .countTotal datasetsWithKeywords datasets.length⟩⟩

/-- `evaluateThemeAvailability`. -/
def evaluateThemeAvailability (g : Graph) : MetricEval :=
  let datasets := getSubjectsByType g (dcat "Dataset")
  if datasets.length = 0 then
    ⟨0, false, ⟨"metricDetails.noDatasetsFound", .noParams⟩⟩
  else
    let datasetsWithTheme := datasets.countP (fun d => hasQuad g d (dcat "theme"))
    let percentage := ((datasetsWithTheme : ℚ) / (datasets.length : ℚ)) * 100
    ⟨percentage, decide (0 < percentage),
      ⟨"metricDetails.datasetsHaveThemes", .countTotal datasetsWithTheme datasets.length⟩⟩

/-- `evaluateSpatialAvailability`. -/
def evaluateSpatialAvailability (g : Graph) : MetricEval :=
  let datasets := getSubjectsByType g (dcat "Dataset")
  if datasets.length = 0 then
    ⟨0, false, ⟨"metricDetails.noDatasetsFound", .noParams⟩⟩
  else
    let datasetsWithSpatial := datasets.countP (fun d => hasQuad g d (dct "spatial"))
    let percentage := ((datasetsWithSpatial : ℚ) / (datasets.length : ℚ)) * 100
    ⟨percentage, decide (0 < percentage),
      ⟨"metricDetails.datasetsHaveSpatialCoverage", .countTotal datasetsWithSpatial datasets.length⟩⟩

/-- `evaluateTemporalAvailability`. -/
def evaluateTemporalAvailability (g : Graph) : MetricEval :=
  let datasets := getSubjectsByType g (dcat "Dataset")
  if datasets.length = 0 then
    ⟨0, false, ⟨"metricDetails.noDatasetsFound", .noParams⟩⟩
  else
    let datasetsWithTemporal := datasets.countP (fun d => hasQuad g d (dct "temporal"))
    let percentage := ((datasetsWithTemporal : ℚ) / (datasets.length : ℚ)) * 100
    ⟨percentage, decide (0 < percentage),
      ⟨"metricDetails.datasetsHaveTemporalCoverage", .countTotal datasetsWithTemporal datasets.length⟩⟩

-- ===== ACCESSIBILITY METRIC EVALUATORS =====

/-- The URL-collecting loop shared by the two status metrics: the first
object value of `predicateUri`, kept when truthy and `http(s)`-prefixed
(an `http(s)`-prefixed string is never empty, so the prefix test covers
the truthiness guard of the source). -/
def collectHttpUrls (g : Graph) (distributions : List String) (predicateUri : String) :
    List String :=
  distributions.filterMap (fun dist =>
    match getObjectValue g dist predicateUri with
    | some u => if isHttpUrl u then some u else none
    | none => none)

/-- `evaluateAccessURLStatus`. -/
def evaluateAccessURLStatus (env : EvalEnv) (g : Graph) : MetricEval :=
  let distributions := getSubjectsByType g (dcat "Distribution")
  if distributions.length = 0 then
    ⟨0, false, ⟨"metricDetails.noDistributionsFound", .noParams⟩⟩
  else
    let urlsToCheck := collectHttpUrls g distributions (dcat "accessURL")
    if urlsToCheck.length = 0 then
      ⟨0, false, ⟨"metricDetails.noDistributionsWithAccessURL", .noParams⟩⟩
    else if !env.urlCheckEnabled then
      let percentage := ((urlsToCheck.length : ℚ) / (distributions.length : ℚ)) * 100
      ⟨percentage, decide (0 < urlsToCheck.length),
        ⟨"metricDetails.distributionsHaveAccessURLNotChecked",
          .countTotal urlsToCheck.length distributions.length⟩⟩
    else
      let accessibleCount := urlsToCheck.countP env.probe
      let percentage := ((accessibleCount : ℚ) / (distributions.length : ℚ)) * 100
      ⟨percentage, decide (0 < accessibleCount),
        ⟨"metricDetails.distributionsHaveAccessURL",
          .countTotal accessibleCount distributions.length⟩⟩

/-- `evaluateDownloadURLAvailability`. -/
def evaluateDownloadURLAvailability (g : Graph) : MetricEval :=
  let distributions := getSubjectsByType g (dcat "Distribution")
  if distributions.length = 0 then
    ⟨0, false, ⟨"metricDetails.noDistributionsFound", .noParams⟩⟩
  else
    let distributionsWithDownloadURL :=
      distributions.countP (fun dist => truthy (getObjectValue g dist (dcat "downloadURL")))
    let percentage := ((distributionsWithDownloadURL : ℚ) / (distributions.length : ℚ)) * 100
    ⟨percentage, decide (0 < percentage),
      ⟨"metricDetails.distributionsHaveDownloadURL",
        .countTotal distributionsWithDownloadURL distributions.length⟩⟩

/-- `evaluateDownloadURLStatus`. -/
def evaluateDownloadURLStatus (env : EvalEnv) (g : Graph) : MetricEval :=
  let distributions := getSubjectsByType g (dcat "Distribution")
  if distributions.length = 0 then
    ⟨0, false, ⟨"metricDetails.noDistributionsFound", .noParams⟩⟩
  else
    let urlsToCheck := collectHttpUrls g distributions (dcat "downloadURL")
    if urlsToCheck.length = 0 then
      ⟨0, false, ⟨"metricDetails.noDistributionsWithDownloadURL", .noParams⟩⟩
    else if !env.urlCheckEnabled then
      let percentage := ((urlsToCheck.length : ℚ) / (distributions.length : ℚ)) * 100
      ⟨percentage, decide (0 < urlsToCheck.length),
        ⟨"metricDetails.distributionsHaveDownloadURL",
          .countTotal urlsToCheck.length distributions.length⟩⟩
    else
      let accessibleCount := urlsToCheck.countP env.probe
      let percentage := ((accessibleCount : ℚ) / (urlsToCheck.length : ℚ)) * 100
      ⟨percentage, decide (0 < accessibleCount),
        ⟨"metricDetails.downloadURLsAccessible",
          .countTotal accessibleCount urlsToCheck.length⟩⟩

-- ===== INTEROPERABILITY METRIC EVALUATORS =====

/-- `evaluateFormatAvailability`. -/
def evaluateFormatAvailability (g : Graph) : MetricEval :=
  let distributions := getSubjectsByType g (dcat "Distribution")
  if distributions.length = 0 then
    ⟨0, false, ⟨"metricDetails.noDistributionsFound", .noParams⟩⟩
  else
    let distributionsWithFormat :=
      distributions.countP (fun dist => truthy (getObjectValue g dist (dct "format")))
    let percentage := ((distributionsWithFormat : ℚ) / (distributions.length : ℚ)) * 100
    ⟨percentage, decide (0 < percentage),
      ⟨"metricDetails.distributionsHaveFormat",
        .countTotal distributionsWithFormat distributions.length⟩⟩

/-- `evaluateMediaTypeAvailability`. -/
def evaluateMediaTypeAvailability (g : Graph) : MetricEval :=
  let distributions := getSubjectsByType g (dcat "Distribution")
  if distributions.length = 0 then
    ⟨0, false, ⟨"metricDetails.noDistributionsFound", .noParams⟩⟩
  else
    let distributionsWithMediaType :=
      distributions.countP (fun dist => truthy (getObjectValue g dist (dcat "mediaType")))
    let percentage := ((distributionsWithMediaType : ℚ) / (distributions.length : ℚ)) * 100
    ⟨percentage, decide (0 < percentage),
      ⟨"metricDetails.distributionsHaveMediaType",
        .countTotal distributionsWithMediaType distributions.length⟩⟩

/-- The per-distribution predicate of `evaluateFormatMediaTypeVocabulary`:
`(format && normalizeFormat(format).includes('/')) ||
 (mediaType && mediaType.includes('/'))`. -/
def hasKnownFormatOrMediaType (g : Graph) (dist : String) : Bool :=
  (match getObjectValue g dist (dct "format") with
   | some f => !(f == "") && (normalizeFormat f).contains '/'
   | none => false)
  ||
  (match getObjectValue g dist (dcat "mediaType") with
   | some m => !(m == "") && m.contains '/'
   | none => false)

/-- `evaluateFormatMediaTypeVocabulary`. -/
def evaluateFormatMediaTypeVocabulary (g : Graph) : MetricEval :=
  let distributions := getSubjectsByType g (dcat "Distribution")
  if distributions.length = 0 then
    ⟨0, false, ⟨"metricDetails.noDistributionsFound", .noParams⟩⟩
  else
    let distributionsWithKnownFormat := distributions.countP (hasKnownFormatOrMediaType g)
    let percentage := ((distributionsWithKnownFormat : ℚ) / (distributions.length : ℚ)) * 100
    ⟨percentage, decide (0 < percentage),
      ⟨"metricDetails.distributionsUseKnownFormat",
        .countTotal distributionsWithKnownFormat distributions.length⟩⟩

/-- `evaluateNonProprietaryFormat`. -/
def evaluateNonProprietaryFormat (env : EvalEnv) (g : Graph) : MetricEval :=
  let distributions := getSubjectsByType g (dcat "Distribution")
  if distributions.length = 0 then
    ⟨0, false, ⟨"metricDetails.noDistributionsFound", .noParams⟩⟩
  else
    let distributionsWithNonProprietary := distributions.countP (fun dist =>
      match getObjectValue g dist (dct "format") with
      | some f => !(f == "") && isNonProprietary env f
      | none => false)
    let percentage := ((distributionsWithNonProprietary : ℚ) / (distributions.length : ℚ)) * 100
    ⟨percentage, decide (0 < percentage),
      ⟨"metricDetails.distributionsUseNonProprietary",
        .countTotal distributionsWithNonProprietary distributions.length⟩⟩

/-- `evaluateMachineReadableFormat`. -/
def evaluateMachineReadableFormat (env : EvalEnv) (g : Graph) : MetricEval :=
  let distributions := getSubjectsByType g (dcat "Distribution")
  if distributions.length = 0 then
    ⟨0, false, ⟨"metricDetails.noDistributionsFound", .noParams⟩⟩
  else
    let distributionsWithMachineReadable := distributions.countP (fun dist =>
      match getObjectValue g dist (dct "format") with
      | some f => !(f == "") && isMachineReadable env f
      | none => false)
    let percentage := ((distributionsWithMachineReadable : ℚ) / (distributions.length : ℚ)) * 100
    ⟨percentage, decide (0 < percentage),
      ⟨"metricDetails.distributionsAreMachineReadable",
        .countTotal distributionsWithMachineReadable distributions.length⟩⟩

-- ===== REUSABILITY METRIC EVALUATORS =====

/-- `evaluateLicenseAvailability`. -/
def evaluateLicenseAvailability (g : Graph) : MetricEval :=
  let distributions := getSubjectsByType g (dcat "Distribution")
  if distributions.length = 0 then
    ⟨0, false, ⟨"metricDetails.noDistributionsFound", .noParams⟩⟩
  else
    let distributionsWithLicense :=
      distributions.countP (fun dist => truthy (getObjectValue g dist (dct "license")))
    let percentage := ((distributionsWithLicense : ℚ) / (distributions.length : ℚ)) * 100
    ⟨percentage, decide (0 < percentage),
      ⟨"metricDetails.distributionsHaveLicense",
        .countTotal distributionsWithLicense distributions.length⟩⟩

/-- `evaluateLicenseVocabulary`. -/
def evaluateLicenseVocabulary (env : EvalEnv) (g : Graph) : MetricEval :=
  let distributions := getSubjectsByType g (dcat "Distribution")
  if distributions.length = 0 then
    ⟨0, false, ⟨"metricDetails.noDistributionsFound", .noParams⟩⟩
  else
    let distributionsWithKnownLicense := distributions.countP (fun dist =>
      match getObjectValue g dist (dct "license") with
      | some l => !(l == "") && isKnownLicense env l
      | none => false)
    let percentage := ((distributionsWithKnownLicense : ℚ) / (distributions.length : ℚ)) * 100
    ⟨percentage, decide (0 < percentage),
      ⟨"metricDetails.distributionsUseKnownLicense",
        .countTotal distributionsWithKnownLicense distributions.length⟩⟩

/-- `evaluateAccessRightsAvailability` (a dataset-level metric). -/
def evaluateAccessRightsAvailability (g : Graph) : MetricEval :=
  let datasets := getSubjectsByType g (dcat "Dataset")
  if datasets.length = 0 then
    ⟨0, false, ⟨"metricDetails.noDatasetsFound", .noParams⟩⟩
  else
    let datasetsWithAccessRights :=
      datasets.countP (fun d => truthy (getObjectValue g d (dct "accessRights")))
    let percentage := ((datasetsWithAccessRights : ℚ) / (datasets.length : ℚ)) * 100
    ⟨percentage, decide (0 < percentage),
      ⟨"metricDetails.datasetsHaveAccessRights",
        .countTotal datasetsWithAccessRights datasets.length⟩⟩

/-- `evaluateAccessRightsVocabulary`. -/
def evaluateAccessRightsVocabulary (env : EvalEnv) (g : Graph) : MetricEval :=
  let datasets := getSubjectsByType g (dcat "Dataset")
  if datasets.length = 0 then
    ⟨0, false, ⟨"metricDetails.noDatasetsFound", .noParams⟩⟩
  else
    let datasetsWithKnownAccessRights := datasets.countP (fun d =>
      match getObjectValue g d (dct "accessRights") with
      | some a => !(a == "") && isKnownAccessRights env a
      | none => false)
    let percentage := ((datasetsWithKnownAccessRights : ℚ) / (datasets.length : ℚ)) * 100
    ⟨percentage, decide (0 < percentage),
      ⟨"metricDetails.datasetsUseKnownAccessRights",
        .countTotal datasetsWithKnownAccessRights datasets.length⟩⟩

/-- `evaluateContactPointAvailability`. -/
def evaluateContactPointAvailability (g : Graph) : MetricEval :=
  let datasets := getSubjectsByType g (dcat "Dataset")
  if datasets.length = 0 then
    ⟨0, false, ⟨"metricDetails.noDatasetsFound", .noParams⟩⟩
  else
    let datasetsWithContactPoint :=
      datasets.countP (fun d => truthy (getObjectValue g d (dcat "contactPoint")))
    let percentage := ((datasetsWithContactPoint : ℚ) / (datasets.length : ℚ)) * 100
    ⟨percentage, decide (0 < percentage),
      ⟨"metricDetails.datasetsHaveContactPoint",
        .countTotal datasetsWithContactPoint datasets.length⟩⟩

/-- `evaluatePublisherAvailability`. -/
def evaluatePublisherAvailability (g : Graph) : MetricEval :=
  let datasets := getSubjectsByType g (dcat "Dataset")
  if datasets.length = 0 then
    ⟨0, false, ⟨"metricDetails.noDatasetsFound", .noParams⟩⟩
  else
    let datasetsWithPublisher :=
      datasets.countP (fun d => truthy (getObjectValue g d (dct "publisher")))
    let percentage := ((datasetsWithPublisher : ℚ) / (datasets.length : ℚ)) * 100
    ⟨percentage, decide (0 < percentage),
      ⟨"metricDetails.datasetsHavePublisher",
        .countTotal datasetsWithPublisher datasets.length⟩⟩

-- ===== CONTEXTUALITY METRIC EVALUATORS =====

/-- `evaluateByteSizeAvailability`. -/
def evaluateByteSizeAvailability (g : Graph) : MetricEval :=
  let distributions := getSubjectsByType g (dcat "Distribution")
  if distributions.length = 0 then
    ⟨0, false, ⟨"metricDetails.noDistributionsFound", .noParams⟩⟩
  else
    let distributionsWithByteSize :=
      distributions.countP (fun dist => truthy (getObjectValue g dist (dcat "byteSize")))
    let percentage := ((distributionsWithByteSize : ℚ) / (distributions.length : ℚ)) * 100
    ⟨percentage, decide (0 < percentage),
      ⟨"metricDetails.distributionsHaveByteSize",
        .countTotal distributionsWithByteSize distributions.length⟩⟩

/-- `evaluateIssuedDateAvailability`. -/
def evaluateIssuedDateAvailability (g : Graph) : MetricEval :=
  let datasets := getSubjectsByType g (dcat "Dataset")
  if datasets.length = 0 then
    ⟨0, false, ⟨"metricDetails.noDatasetsFound", .noParams⟩⟩
  else
    let entitiesWithIssued :=
      datasets.countP (fun d => truthy (getObjectValue g d (dct "issued")))
    let percentage := ((entitiesWithIssued : ℚ) / (datasets.length : ℚ)) * 100
    ⟨percentage, decide (0 < percentage),
      ⟨"metricDetails.entitiesHaveIssuedDate",
        .countTotal entitiesWithIssued datasets.length⟩⟩

/-- `evaluateModifiedDateAvailability`. -/
def evaluateModifiedDateAvailability (g : Graph) : MetricEval :=
  let datasets := getSubjectsByType g (dcat "Dataset")
  if datasets.length = 0 then
    ⟨0, false, ⟨"metricDetails.noDatasetsFound", .noParams⟩⟩
  else
    let entitiesWithModified :=
      datasets.countP (fun d => truthy (getObjectValue g d (dct "modified")))
    let percentage := ((entitiesWithModified : ℚ) / (datasets.length : ℚ)) * 100
    ⟨percentage, decide (0 < percentage),
      ⟨"metricDetails.entitiesHaveModifiedDate",
        .countTotal entitiesWithModified datasets.length⟩⟩

/-- `evaluateRightsAvailability`. -/
def evaluateRightsAvailability (g : Graph) : MetricEval :=
  let distributions := getSubjectsByType g (dcat "Distribution")
  if distributions.length = 0 then
    ⟨0, false, ⟨"metricDetails.noDistributionsFound", .noParams⟩⟩
  else
    let distributionsWithRights :=
      distributions.countP (fun dist => truthy (getObjectValue g dist (dct "rights")))
    let percentage := ((distributionsWithRights : ℚ) / (distributions.length : ℚ)) * 100
    ⟨percentage, decide (0 < percentage),
      ⟨"metricDetails.distributionsHaveRights",
        .countTotal distributionsWithRights distributions.length⟩⟩

-- ===== DISPATCH =====

/-- `id.replace(/_/g, ' ').toUpperCase()`. -/
def metricName (id : String) : String :=
  (id.map (fun c => if c = '_' then ' ' else c)).toUpper

/-- `DatasetStatistics` from `types` (plain counters, not consumed by the
scoring logic). -/
structure DatasetStatistics where
  datasetsCount : Nat
  distributionsCount : Nat
  dataServicesCount : Nat
  keywordsCount : Nat
  licensesCount : Nat
  accessRightsCount : Nat
  contactPointsCount : Nat
  spatialCount : Nat
  temporalCount : Nat
deriving DecidableEq

/-- `calculateStatistics`. -/
def calculateStatistics (g : Graph) : DatasetStatistics :=
  let datasets := getSubjectsByType g (dcat "Dataset")
  let distributions := getSubjectsByType g (dcat "Distribution")
  let dataServices := getSubjectsByType g (dcat "DataService")
  { datasetsCount := datasets.length
    distributionsCount := distributions.length
    dataServicesCount := dataServices.length
    keywordsCount := (datasets.map (fun d => (getObjects g d (dcat "keyword")).length)).sum
    licensesCount := datasets.countP (fun d => (getObjects g d (dct "license")).length > 0)
    accessRightsCount := datasets.countP (fun d => (getObjects g d (dct "accessRights")).length > 0)
    contactPointsCount := (datasets.map (fun d => (getObjects g d (dcat "contactPoint")).length)).sum
    spatialCount := datasets.countP (fun d => (getObjects g d (dct "spatial")).length > 0)
    temporalCount := datasets.countP (fun d => (getObjects g d (dct "temporal")).length > 0) }

/-- The inner `switch (id)` of `evaluateMetric`, branch for branch. -/
def dispatchMetric (env : EvalEnv) (id : String) (g : Graph) : MetricEval :=
  if id = "dcat_keyword" then evaluateKeywordAvailability g
  else if id = "dcat_theme" then evaluateThemeAvailability g
  else if id = "dct_spatial" then evaluateSpatialAvailability g
  else if id = "dct_temporal" then evaluateTemporalAvailability g
  else if id = "dcat_access_url_status" then evaluateAccessURLStatus env g
  else if id = "dcat_download_url" then evaluateDownloadURLAvailability g
  else if id = "dcat_download_url_status" then evaluateDownloadURLStatus env g
  else if id = "dct_format" then evaluateFormatAvailability g
  else if id = "dcat_media_type" then evaluateMediaTypeAvailability g
  else if id = "dct_format_vocabulary" ∨ id = "dcat_media_type_vocabulary"
      ∨ id = "dct_format_vocabulary_nti_risp" ∨ id = "dcat_media_type_vocabulary_nti_risp" then
    evaluateFormatMediaTypeVocabulary g
  else if id = "dct_format_nonproprietary" then evaluateNonProprietaryFormat env g
  else if id = "dct_format_machine_readable" then evaluateMachineReadableFormat env g
  else if id = "dcat_ap_compliance" ∨ id = "dcat_ap_es_compliance"
      ∨ id = "nti_risp_compliance" then
    ⟨100, true, ⟨"metricDetails.shaclValidationPassed", .noParams⟩⟩
  else if id = "dct_license" ∨ id = "dct_license_nti_risp" then evaluateLicenseAvailability g
  else if id = "dct_license_vocabulary" then evaluateLicenseVocabulary env g
  else if id = "dct_access_rights" then evaluateAccessRightsAvailability g
  else if id = "dct_access_rights_vocabulary" then evaluateAccessRightsVocabulary env g
  else if id = "dcat_contact_point" then evaluateContactPointAvailability g
  else if id = "dct_publisher" then evaluatePublisherAvailability g
  else if id = "dcat_byte_size" then evaluateByteSizeAvailability g
  else if id = "dct_issued" then evaluateIssuedDateAvailability g
  else if id = "dct_modified" then evaluateModifiedDateAvailability g
  else if id = "dct_rights" then evaluateRightsAvailability g
  else ⟨0, false, ⟨"metricDetails.metricNotImplemented", .idParam id⟩⟩

/-- `evaluateMetric(metricConfig, store, statistics, profile)`: dispatch on
the metric id, then wrap the outcome with id, display name and weight.
The statistics and profile arguments are accepted but not consulted,
exactly as in the source body. -/
def evaluateMetric (env : EvalEnv) (metricConfig : MetricConfig) (g : Graph)
    (_statistics : DatasetStatistics) (_profile : String) : MetricResult :=
  let e := dispatchMetric env metricConfig.id g
  ⟨metricConfig.id, metricName metricConfig.id, e.value, metricConfig.weight, e.passed, e.details⟩

-- ===== METRIC CLASSIFICATION (for the no-entities and unknown-id claims) =====

/-- The eligible-entity class a registry metric counts over. -/
inductive EntityKind where
  | dataset
  | distribution
deriving DecidableEq

/-- The registry ids whose evaluator counts over `dcat:Dataset` subjects. -/
def datasetMetricIds : List String :=
  ["dcat_keyword", "dcat_theme", "dct_spatial", "dct_temporal",
   "dct_access_rights", "dct_access_rights_vocabulary",
   "dcat_contact_point", "dct_publisher", "dct_issued", "dct_modified"]

/-- The registry ids whose evaluator counts over `dcat:Distribution`
subjects. -/
def distributionMetricIds : List String :=
  ["dcat_access_url_status", "dcat_download_url", "dcat_download_url_status",
   "dct_format", "dcat_media_type",
   "dct_format_vocabulary", "dcat_media_type_vocabulary",
   "dct_format_vocabulary_nti_risp", "dcat_media_type_vocabulary_nti_risp",
   "dct_format_nonproprietary", "dct_format_machine_readable",
   "dct_license", "dct_license_nti_risp", "dct_license_vocabulary",
   "dcat_byte_size", "dct_rights"]

/-- The static compliance ids (no eligible-entity class; always 100). -/
def complianceMetricIds : List String :=
  ["dcat_ap_compliance", "dcat_ap_es_compliance", "nti_risp_compliance"]

/-- Every id handled by a `case` of the `switch` in `evaluateMetric`. -/
def knownMetricIds : List String :=
  datasetMetricIds ++ distributionMetricIds ++ complianceMetricIds

/-- The eligible-entity class of a metric id, when it has one. -/
def metricEntityKind (id : String) : Option EntityKind :=
  if id ∈ datasetMetricIds then some .dataset
  else if id ∈ distributionMetricIds then some .distribution
  else none

/-- The eligible entities of a metric class in a graph. -/
def eligibleEntities (g : Graph) : EntityKind → List String
  | .dataset => getSubjectsByType g (dcat "Dataset")
  | .distribution => getSubjectsByType g (dcat "Distribution")

/-- The "no entities found" detail each evaluator emits for its class. -/
def noEntitiesDetail : EntityKind → MetricDetail
  | .dataset => ⟨"metricDetails.noDatasetsFound", .noParams⟩
  | .distribution => ⟨"metricDetails.noDistributionsFound", .noParams⟩

-- ===== DIMENSION AGGREGATOR / QUALITY ASSESSOR =====

/-- One dimension's `{ maxScore }` entries, with the five keys the
configuration type `MQAProfileVersion.dimensions` declares. -/
structure DimensionsConfig where
  findability : ℚ
  accessibility : ℚ
  interoperability : ℚ
  reusability : ℚ
  contextuality : ℚ
deriving DecidableEq

/-- The pre-loaded configuration surface `calculateQuality` consumes:
`getProfileDimensions` (none when the profile is unknown),
`getProfileMetrics` (empty list for a missing dimension entry) and
`getMaxScore`. -/
structure ProfileConfig where
  dimensions : Option DimensionsConfig
  metricsFor : String → List MetricConfig
  maxScore : ℚ

/-- `dimensionsConfig?.[dimensionName]?.maxScore || 0`. -/
def dimMaxScore (dims : Option DimensionsConfig) (dimensionName : String) : ℚ :=
  match dims with
  | none => 0
  | some d =>
    if dimensionName = "findability" then d.findability
    else if dimensionName = "accessibility" then d.accessibility
    else if dimensionName = "interoperability" then d.interoperability
    else if dimensionName = "reusability" then d.reusability
    else if dimensionName = "contextuality" then d.contextuality
    else 0

/-- `QualityDimension` as built by `calculateDimension`. -/
structure QualityDimension where
  name : String
  score : ℚ
  weight : ℚ
  metrics : List MetricResult
deriving DecidableEq

/-- `calculateDimension(store, statistics, profile, dimensionName)`: run
every configured metric, accumulate `Σ(value×weight)` and `Σ(weight)`,
and scale the weighted percentage to the dimension's maxScore. -/
def calculateDimension (env : EvalEnv) (g : Graph) (statistics : DatasetStatistics)
    (pc : ProfileConfig) (profile : String) (dimensionName : String) : QualityDimension :=
  let metricsConfig := pc.metricsFor dimensionName
  let dimensionMaxScore := dimMaxScore pc.dimensions dimensionName
  let metrics := metricsConfig.map (fun c => evaluateMetric env c g statistics profile)
  let weightedSum :=
    (metricsConfig.map (fun c => (evaluateMetric env c g statistics profile).value * c.weight)).sum
  let totalWeight := (metricsConfig.map (fun c => c.weight)).sum
  let dimensionPercentage := if 0 < totalWeight then weightedSum / totalWeight else 0
  let actualScore := (dimensionPercentage / 100) * dimensionMaxScore
  ⟨dimensionName.capitalize, actualScore, dimensionMaxScore, metrics⟩

/-- The named-key output record of `calculateQuality`; a field is `none`
exactly when the corresponding lookup in the dynamically keyed dimension
map is `undefined`. -/
structure OutputDimensions where
  findability : Option QualityDimension
  accessibility : Option QualityDimension
  interoperability : Option QualityDimension
  reusability : Option QualityDimension
  contextuality : Option QualityDimension
deriving DecidableEq

/-- `QualityAssessment`. -/
structure QualityAssessment where
  overallScore : ℤ
  maxScore : ℚ
  dimensions : OutputDimensions
  timestamp : ℤ
deriving DecidableEq

/-- The keys of `MQAProfileVersion.dimensions` (`Object.keys` of a loaded
dimensions configuration, in declaration order). -/
def dimensionNames : List String :=
  ["findability", "accessibility", "interoperability", "reusability", "contextuality"]

/-- `calculateQuality(store, profile)`: throw when the profile has no
dimensions configuration, otherwise evaluate every configured dimension,
sum their point scores and round for the overall score.  `now` stands for
`Date.now()`. -/
def calculateQuality (env : EvalEnv) (g : Graph) (pc : ProfileConfig)
    (profile : String) (now : ℤ) : Except String QualityAssessment :=
  let statistics := calculateStatistics g
  match pc.dimensions with
  | none => .error ("Profile " ++ profile ++ " not found in configuration")
  | some _ =>
    let dims := dimensionNames.map
      (fun dimName => (dimName, calculateDimension env g statistics pc profile dimName))
    let totalScore := (dims.map (fun p => p.2.score)).sum
    .ok
      { overallScore := round totalScore
        maxScore := pc.maxScore
        dimensions :=
          { findability := (dims.lookup "findability").map id
            accessibility := (dims.lookup "accessibility").map id
            interoperability := (dims.lookup "interoperability").map id
            reusability := (dims.lookup "reusability").map id
            contextuality := (dims.lookup "contextuality").map id }
        timestamp := now }

-- ===== URL STATUS CLIENT: CACHE (url-status-client.ts) =====

/-- `CheckUrlResponse` (the fields the cache layer stores and returns). -/
structure CheckUrlResponse where
  url : String
  accessible : Bool
  statusCode : Option Nat
  error : Option String
deriving DecidableEq

/-- The module-level `urlCache`: a `Map` from URL to
`{ result, timestamp }`, embedded as an association list with the map's
key-uniqueness maintained by `cacheSet`. -/
abbrev UrlCache := List (String × CheckUrlResponse × ℤ)

/-- `CACHE_TTL = 5 * 60 * 1000`. -/
def CACHE_TTL : ℤ := 5 * 60 * 1000

/-- `Map.get(key)` over an association list (keys unique by construction). -/
def assocGet {β : Type} : List (String × β) → String → Option β
  | [], _ => none
  | (a, b) :: rest, k => if a = k then some b else assocGet rest k

/-- `urlCache.set(url, { result, timestamp })`: replace the entry of an
existing key in place, otherwise append. -/
def cacheSet (cache : UrlCache) (url : String) (result : CheckUrlResponse)
    (timestamp : ℤ) : UrlCache :=
  if cache.any (fun p => decide (p.1 = url)) then
    cache.map (fun p => if p.1 = url then (url, result, timestamp) else p)
  else cache ++ [(url, result, timestamp)]

/-- The cache-miss tail of `checkUrlStatusCached`: probe, store with the
current timestamp, lazily purge expired entries when the cache exceeds
1000 entries, and return the fresh result.  The third component records
whether a network probe happened. -/
def cacheMissProbe (probe : String → CheckUrlResponse) (now : ℤ) (url : String)
    (cache : UrlCache) : CheckUrlResponse × UrlCache × Bool :=
  let result := probe url
  let cache1 := cacheSet cache url result now
  let cache2 :=
    if cache1.length > 1000 then
      cache1.filter (fun p => !(p.2.2 < now - CACHE_TTL))
    else cache1
  (result, cache2, true)

/-- `checkUrlStatusCached(url, timeout)`: return the cached result when the
entry is younger than the TTL, otherwise probe and store.  `probe`
abstracts the network call `checkUrlStatus(url, timeout)`; the Bool in
the result tells whether it was invoked. -/
def checkUrlStatusCached (probe : String → CheckUrlResponse) (now : ℤ) (url : String)
    (cache : UrlCache) : CheckUrlResponse × UrlCache × Bool :=
  match assocGet cache url with
  | some cached =>
    if now - cached.2 < CACHE_TTL then (cached.1, cache, false)
    else cacheMissProbe probe now url cache
  | none => cacheMissProbe probe now url cache

-- ===== API ROUTE: PUT /api/check-url-status (batch) =====

/-- The parsed body of a batch request: `urls` is `none` when the field is
missing or not an array; `timeout` is `none` when absent (default 3000). -/
structure PutRequest where
  urls : Option (List String)
  timeout : Option Nat
deriving DecidableEq

/-- The JSON body of a batch response. -/
inductive PutResponseBody where
  | errorMsg (msg : String)
  | results (rs : List CheckUrlResponse)
deriving DecidableEq

/-- HTTP status, body, and the URLs this request actually probed. -/
structure PutOutcome where
  status : Nat
  body : PutResponseBody
  probed : List String
deriving DecidableEq

/-- The `PUT` handler of `src/app/api/check-url-status/route.ts`:
reject a missing/non-array `urls`, answer an empty list immediately,
reject batches above 50, and otherwise probe every URL in parallel.
`probe` abstracts `checkUrlStatus(url, timeout)`. -/
def putCheckUrlStatus (probe : String → Nat → CheckUrlResponse)
    (body : PutRequest) : PutOutcome :=
  let timeout := body.timeout.getD 3000
  match body.urls with
  | none => ⟨400, .errorMsg "URLs array is required", []⟩
  | some urls =>
    if urls.length = 0 then ⟨200, .results [], []⟩
    else if urls.length > 50 then
      ⟨400, .errorMsg "Maximum batch size is 50 URLs", []⟩
    else ⟨200, .results (urls.map (fun u => probe u timeout)), urls⟩

-- ===== THE SIDE CONDITION OF THE AMENDED DOWNLOAD-STATUS/EXISTENCE CLAIM =====

/-- A first `downloadURL` object value is absent, or is `http(s)`-prefixed
exactly when it is truthy (in practice: every present, non-empty download
URL starts with `http://` or `https://`).  Under this condition the
status metric's URL collection counts the same distributions as the
availability metric's truthiness count. -/
def httpIfTruthy : Option String → Bool
  | none => true
  | some u => isHttpUrl u == !(u == "")

-- ===== CONCRETE SAMPLE DATA (for witnesses and counterexamples) =====

/-- A `dcat:Dataset` typing triple. -/
def dsT (s : String) : Triple := ⟨s, rdfTypeUri, dcat "Dataset"⟩

/-- A `dcat:keyword` triple. -/
def kwT (s : String) : Triple := ⟨s, dcat "keyword", "transport"⟩

/-- A `dcat:Distribution` typing triple. -/
def distT (s : String) : Triple := ⟨s, rdfTypeUri, dcat "Distribution"⟩

/-- A `dcat:downloadURL` triple. -/
def dlT (s u : String) : Triple := ⟨s, dcat "downloadURL", u⟩

/-- A `dcat:accessURL` triple. -/
def accT (s u : String) : Triple := ⟨s, dcat "accessURL", u⟩

/-- The keyword scenario of the specification: 10 datasets, 4 of which
carry at least one keyword. -/
def kwGraph : Graph :=
  [dsT "d0", dsT "d1", dsT "d2", dsT "d3", dsT "d4",
   dsT "d5", dsT "d6", dsT "d7", dsT "d8", dsT "d9",
   kwT "d0", kwT "d1", kwT "d2", kwT "d3"]

/-- One distribution whose download URL is not `http(s)`-prefixed. -/
def ftpGraph : Graph :=
  [distT "dist1", dlT "dist1" "ftp://example.org/data.csv"]

/-- Two distributions with download URLs, only one `http(s)`-prefixed. -/
def mixedGraph : Graph :=
  [distT "dist1", dlT "dist1" "http://a.example/file.csv",
   distT "dist2", dlT "dist2" "ftp://b.example/file.csv"]

/-- One distribution with an `http` access URL and an `http` download URL. -/
def httpGraph : Graph :=
  [distT "dist1", accT "dist1" "http://a.example/page",
   dlT "dist1" "http://a.example/file.csv"]

/-- An environment with URL checking disabled and empty vocabularies. -/
def envDisabled : EvalEnv :=
  ⟨false, fun _ => false, fun _ => false, fun _ => false, fun _ => false, fun _ => false⟩

/-- An environment with URL checking enabled whose checker reports every
probed URL accessible. -/
def envAllTrue : EvalEnv :=
  ⟨true, fun _ => true, fun _ => false, fun _ => false, fun _ => false, fun _ => false⟩

/-- A probe oracle for the cache layer. -/
def probeFresh : String → CheckUrlResponse :=
  fun u => ⟨u, true, some 200, none⟩

/-- A stored probe result used in the cache witness. -/
def storedResult : CheckUrlResponse :=
  ⟨"http://cached.example/x", true, some 200, none⟩

/-- A cache holding `storedResult` for its URL at timestamp 1000. -/
def cacheOne : UrlCache :=
  [("http://cached.example/x", storedResult, 1000)]

/-- A probe oracle for the batch route. -/
def probeBatch : String → Nat → CheckUrlResponse :=
  fun u _ => ⟨u, false, some 404, none⟩

/-- A batch request with 51 URLs (above the route's limit). -/
def body51 : PutRequest :=
  ⟨some (List.replicate 51 "http://big.example/u"), none⟩

/-- A minimal profile configuration: one keyword metric in findability,
nothing elsewhere. -/
def samplePC : ProfileConfig :=
  { dimensions := some ⟨60, 20, 15, 5, 5⟩
    metricsFor := fun dimName =>
      if dimName = "findability" then [⟨"dcat_keyword", 30, "dcat:keyword"⟩] else []
    maxScore := 105 }

/-- A profile configuration with every dimension's metric list empty and
zero weights (total weight 0 in every dimension). -/
def zeroWeightPC : ProfileConfig :=
  { dimensions := some ⟨60, 20, 15, 5, 5⟩
    metricsFor := fun _ => [⟨"dcat_keyword", 0, "dcat:keyword"⟩]
    maxScore := 105 }

-- ===================================================================
-- Theorems
-- ===================================================================

-- ===== Shared arithmetic lemmas about proportional percentages =====

/-- A percentage `k / n * 100` with `k ≤ n` and `0 < n` lies in `[0, 100]`. -/
theorem ratio_pct_bounds (k n : ℕ) (hkn : k ≤ n) (hn : 0 < n) :
    0 ≤ ((k : ℚ) / (n : ℚ)) * 100 ∧ ((k : ℚ) / (n : ℚ)) * 100 ≤ 100 := by
  have hn' : (0 : ℚ) < (n : ℚ) := by exact_mod_cast hn
  have hkn' : (k : ℚ) ≤ (n : ℚ) := by exact_mod_cast hkn
  constructor
  · have : (0 : ℚ) ≤ (k : ℚ) / (n : ℚ) := div_nonneg (by positivity) hn'.le
    nlinarith
  · have hdiv : (k : ℚ) / (n : ℚ) ≤ 1 := (div_le_one hn').2 hkn'
    nlinarith

/-- A percentage `k / n * 100` with `0 < n` is positive iff `0 < k`. -/
theorem ratio_pct_pos_iff (k n : ℕ) (hn : 0 < n) :
    (0 < ((k : ℚ) / (n : ℚ)) * 100) ↔ 0 < k := by
  have hn' : (0 : ℚ) < (n : ℚ) := by exact_mod_cast hn
  constructor
  · intro h
    by_contra hk
    have hk0 : k = 0 := Nat.eq_zero_of_not_pos hk
    rw [hk0] at h
    norm_num at h
  · intro hk
    have hk' : (0 : ℚ) < (k : ℚ) := by exact_mod_cast hk
    positivity

-- ===== C1: proportional keyword metric =====

/-- C1: on every graph with at least one `dcat:Dataset` subject, the
`dcat_keyword` metric outcome has
`value = 100 * (datasets with ≥ 1 keyword) / (datasets)` and is passed
exactly when that numerator is positive. -/
theorem keyword_metric_proportional (env : EvalEnv) (g : Graph) (w : ℚ) (prop : String)
    (stats : DatasetStatistics) (profile : String)
    (h : getSubjectsByType g (dcat "Dataset") ≠ []) :
    (evaluateMetric env ⟨"dcat_keyword", w, prop⟩ g stats profile).value
      = 100 * ((getSubjectsByType g (dcat "Dataset")).countP
            (fun d => hasQuad g d (dcat "keyword")) : ℚ)
          / ((getSubjectsByType g (dcat "Dataset")).length : ℚ)
    ∧ ((evaluateMetric env ⟨"dcat_keyword", w, prop⟩ g stats profile).passed = true
      ↔ 0 < (getSubjectsByType g (dcat "Dataset")).countP
            (fun d => hasQuad g d (dcat "keyword"))) := by
  have hlen : (getSubjectsByType g (dcat "Dataset")).length ≠ 0 :=
    fun h0 => h (List.length_eq_zero.mp h0)
  have hpos : 0 < (getSubjectsByType g (dcat "Dataset")).length := Nat.pos_of_ne_zero hlen
  have hv : (evaluateMetric env ⟨"dcat_keyword", w, prop⟩ g stats profile).value
      = (evaluateKeywordAvailability g).value := rfl
  have hp : (evaluateMetric env ⟨"dcat_keyword", w, prop⟩ g stats profile).passed
      = (evaluateKeywordAvailability g).passed := rfl
  rw [hv, hp]
  simp only [evaluateKeywordAvailability]
  rw [if_neg hlen]
  constructor
  · show ((_ : ℚ) / _) * 100 = _
    ring
  · show decide _ = true ↔ _
    rw [decide_eq_true_iff]
    exact ratio_pct_pos_iff _ _ hpos

/-- C1 witness: the specification scenario — 10 datasets, 4 with a
keyword — yields `value = 40` and `passed = true`. -/
theorem keyword_metric_proportional_witness :
    (evaluateMetric envAllTrue ⟨"dcat_keyword", 30, "dcat:keyword"⟩ kwGraph
        (calculateStatistics kwGraph) "dcat_ap_es").value = 40
    ∧ (evaluateMetric envAllTrue ⟨"dcat_keyword", 30, "dcat:keyword"⟩ kwGraph
        (calculateStatistics kwGraph) "dcat_ap_es").passed = true := by
  have h := keyword_metric_proportional envAllTrue kwGraph 30 "dcat:keyword"
    (calculateStatistics kwGraph) "dcat_ap_es" (by decide)
  have hc : (getSubjectsByType kwGraph (dcat "Dataset")).countP
      (fun d => hasQuad kwGraph d (dcat "keyword")) = 4 := by decide
  have hn : (getSubjectsByType kwGraph (dcat "Dataset")).length = 10 := by decide
  constructor
  · rw [h.1, hc, hn]; norm_num
  · rw [h.2, hc]; decide

-- ===== C2: weighted dimension score =====

/-- C2: a dimension's point score is the weighted average of its metric
values divided by 100 and scaled by the dimension's maxScore, and is 0
when the total weight is 0. -/
theorem dimension_score_weighted_average (env : EvalEnv) (g : Graph)
    (stats : DatasetStatistics) (pc : ProfileConfig) (profile dimName : String) :
    (0 < ((pc.metricsFor dimName).map (fun c => c.weight)).sum →
      (calculateDimension env g stats pc profile dimName).score
        = (((pc.metricsFor dimName).map
              (fun c => (evaluateMetric env c g stats profile).value * c.weight)).sum
            / ((pc.metricsFor dimName).map (fun c => c.weight)).sum)
          / 100 * dimMaxScore pc.dimensions dimName)
    ∧ (((pc.metricsFor dimName).map (fun c => c.weight)).sum = 0 →
      (calculateDimension env g stats pc profile dimName).score = 0) := by
  constructor
  · intro hpos
    simp only [calculateDimension]
    rw [if_pos hpos]
  · intro hzero
    simp only [calculateDimension]
    rw [if_neg (by rw [hzero]; exact lt_irrefl 0)]
    simp

/-- C2 witness: instantiated on a one-metric profile with weight 30
(positive total weight) and on an all-zero-weight profile. -/
theorem dimension_score_weighted_average_witness :
    (calculateDimension envAllTrue kwGraph (calculateStatistics kwGraph) samplePC
        "dcat_ap_es" "findability").score
      = ((((samplePC.metricsFor "findability").map
            (fun c => (evaluateMetric envAllTrue c kwGraph
                (calculateStatistics kwGraph) "dcat_ap_es").value * c.weight)).sum
          / ((samplePC.metricsFor "findability").map (fun c => c.weight)).sum)
        / 100 * dimMaxScore samplePC.dimensions "findability")
    ∧ (calculateDimension envAllTrue kwGraph (calculateStatistics kwGraph) zeroWeightPC
        "dcat_ap_es" "findability").score = 0 := by
  constructor
  · exact (dimension_score_weighted_average envAllTrue kwGraph (calculateStatistics kwGraph)
      samplePC "dcat_ap_es" "findability").1 (by norm_num [samplePC])
  · exact (dimension_score_weighted_average envAllTrue kwGraph (calculateStatistics kwGraph)
      zeroWeightPC "dcat_ap_es" "findability").2 (by norm_num [zeroWeightPC])

-- ===== C3: complete assessments for every known profile =====

/-- C3: for every profile known to the configuration (its dimensions
configuration is present), `calculateQuality` succeeds and every one of
the five fixed dimension keys is defined, each dimension carrying one
result per configured metric. -/
theorem quality_assessment_complete (env : EvalEnv) (g : Graph) (pc : ProfileConfig)
    (profile : String) (now : ℤ) (dc : DimensionsConfig)
    (hdc : pc.dimensions = some dc) :
    ∃ qa, calculateQuality env g pc profile now = .ok qa
      ∧ qa.dimensions.findability
          = some (calculateDimension env g (calculateStatistics g) pc profile "findability")
      ∧ qa.dimensions.accessibility
          = some (calculateDimension env g (calculateStatistics g) pc profile "accessibility")
      ∧ qa.dimensions.interoperability
          = some (calculateDimension env g (calculateStatistics g) pc profile "interoperability")
      ∧ qa.dimensions.reusability
          = some (calculateDimension env g (calculateStatistics g) pc profile "reusability")
      ∧ qa.dimensions.contextuality
          = some (calculateDimension env g (calculateStatistics g) pc profile "contextuality")
      ∧ ∀ dimName,
          (calculateDimension env g (calculateStatistics g) pc profile dimName).metrics.length
            = (pc.metricsFor dimName).length := by
  unfold calculateQuality
  rw [hdc]
  refine ⟨_, rfl, rfl, rfl, rfl, rfl, rfl, ?_⟩
  intro dimName
  simp only [calculateDimension]
  exact List.length_map _ _

/-- C3 witness: a concrete profile configuration whose dimensions entry is
present yields a fully populated assessment. -/
theorem quality_assessment_complete_witness :
    ∃ qa, calculateQuality envAllTrue kwGraph samplePC "dcat_ap_es" 0 = .ok qa
      ∧ qa.dimensions.findability
          = some (calculateDimension envAllTrue kwGraph (calculateStatistics kwGraph)
              samplePC "dcat_ap_es" "findability")
      ∧ qa.dimensions.accessibility
          = some (calculateDimension envAllTrue kwGraph (calculateStatistics kwGraph)
              samplePC "dcat_ap_es" "accessibility")
      ∧ qa.dimensions.interoperability
          = some (calculateDimension envAllTrue kwGraph (calculateStatistics kwGraph)
              samplePC "dcat_ap_es" "interoperability")
      ∧ qa.dimensions.reusability
          = some (calculateDimension envAllTrue kwGraph (calculateStatistics kwGraph)
              samplePC "dcat_ap_es" "reusability")
      ∧ qa.dimensions.contextuality
          = some (calculateDimension envAllTrue kwGraph (calculateStatistics kwGraph)
              samplePC "dcat_ap_es" "contextuality")
      ∧ ∀ dimName,
          (calculateDimension envAllTrue kwGraph (calculateStatistics kwGraph)
              samplePC "dcat_ap_es" dimName).metrics.length
            = (samplePC.metricsFor dimName).length :=
  quality_assessment_complete envAllTrue kwGraph samplePC "dcat_ap_es" 0 ⟨60, 20, 15, 5, 5⟩ rfl

-- ===== Metric value range lemmas (the [0,100] invariant) =====

/-- Bounds for the common evaluator shape: an early zero on an empty
entity list, otherwise a percentage of a count over the list's length. -/
theorem value_bounds_ite (l : List String) (c : ℕ) (hc : c ≤ l.length)
    (z p : MetricEval) (hz : z.value = 0)
    (hp : p.value = ((c : ℚ) / (l.length : ℚ)) * 100) :
    0 ≤ (if l.length = 0 then z else p).value
    ∧ (if l.length = 0 then z else p).value ≤ 100 := by
  split_ifs with h
  · rw [hz]; exact ⟨le_refl 0, by norm_num⟩
  · rw [hp]; exact ratio_pct_bounds c l.length hc (Nat.pos_of_ne_zero h)

/-- The collected URL list never outnumbers the distributions. -/
theorem collectHttpUrls_length_le (g : Graph) (dists : List String) (p : String) :
    (collectHttpUrls g dists p).length ≤ dists.length :=
  List.length_filterMap_le _ _

theorem evaluateKeywordAvailability_bounds (g : Graph) :
    0 ≤ (evaluateKeywordAvailability g).value ∧ (evaluateKeywordAvailability g).value ≤ 100 := by
  simp only [evaluateKeywordAvailability]
  exact value_bounds_ite _ _ (List.countP_le_length _) _ _ rfl rfl

theorem evaluateThemeAvailability_bounds (g : Graph) :
    0 ≤ (evaluateThemeAvailability g).value ∧ (evaluateThemeAvailability g).value ≤ 100 := by
  simp only [evaluateThemeAvailability]
  exact value_bounds_ite _ _ (List.countP_le_length _) _ _ rfl rfl

theorem evaluateSpatialAvailability_bounds (g : Graph) :
    0 ≤ (evaluateSpatialAvailability g).value ∧ (evaluateSpatialAvailability g).value ≤ 100 := by
  simp only [evaluateSpatialAvailability]
  exact value_bounds_ite _ _ (List.countP_le_length _) _ _ rfl rfl

theorem evaluateTemporalAvailability_bounds (g : Graph) :
    0 ≤ (evaluateTemporalAvailability g).value
    ∧ (evaluateTemporalAvailability g).value ≤ 100 := by
  simp only [evaluateTemporalAvailability]
  exact value_bounds_ite _ _ (List.countP_le_length _) _ _ rfl rfl

theorem evaluateAccessURLStatus_bounds (env : EvalEnv) (g : Graph) :
    0 ≤ (evaluateAccessURLStatus env g).value
    ∧ (evaluateAccessURLStatus env g).value ≤ 100 := by
  simp only [evaluateAccessURLStatus]
  split_ifs with h1 h2 h3
  · exact ⟨le_refl 0, by norm_num⟩
  · exact ⟨le_refl 0, by norm_num⟩
  · exact ratio_pct_bounds _ _ (collectHttpUrls_length_le g _ _) (Nat.pos_of_ne_zero h1)
  · exact ratio_pct_bounds _ _
      (le_trans (List.countP_le_length _) (collectHttpUrls_length_le g _ _))
      (Nat.pos_of_ne_zero h1)

theorem evaluateDownloadURLAvailability_bounds (g : Graph) :
    0 ≤ (evaluateDownloadURLAvailability g).value
    ∧ (evaluateDownloadURLAvailability g).value ≤ 100 := by
  simp only [evaluateDownloadURLAvailability]
  exact value_bounds_ite _ _ (List.countP_le_length _) _ _ rfl rfl

theorem evaluateDownloadURLStatus_bounds (env : EvalEnv) (g : Graph) :
    0 ≤ (evaluateDownloadURLStatus env g).value
    ∧ (evaluateDownloadURLStatus env g).value ≤ 100 := by
  simp only [evaluateDownloadURLStatus]
  split_ifs with h1 h2 h3
  · exact ⟨le_refl 0, by norm_num⟩
  · exact ⟨le_refl 0, by norm_num⟩
  · exact ratio_pct_bounds _ _ (collectHttpUrls_length_le g _ _) (Nat.pos_of_ne_zero h1)
  · exact ratio_pct_bounds _ _ (List.countP_le_length _) (Nat.pos_of_ne_zero h2)

theorem evaluateFormatAvailability_bounds (g : Graph) :
    0 ≤ (evaluateFormatAvailability g).value ∧ (evaluateFormatAvailability g).value ≤ 100 := by
  simp only [evaluateFormatAvailability]
  exact value_bounds_ite _ _ (List.countP_le_length _) _ _ rfl rfl

theorem evaluateMediaTypeAvailability_bounds (g : Graph) :
    0 ≤ (evaluateMediaTypeAvailability g).value
    ∧ (evaluateMediaTypeAvailability g).value ≤ 100 := by
  simp only [evaluateMediaTypeAvailability]
  exact value_bounds_ite _ _ (List.countP_le_length _) _ _ rfl rfl

theorem evaluateFormatMediaTypeVocabulary_bounds (g : Graph) :
    0 ≤ (evaluateFormatMediaTypeVocabulary g).value
    ∧ (evaluateFormatMediaTypeVocabulary g).value ≤ 100 := by
  simp only [evaluateFormatMediaTypeVocabulary]
  exact value_bounds_ite _ _ (List.countP_le_length _) _ _ rfl rfl

theorem evaluateNonProprietaryFormat_bounds (env : EvalEnv) (g : Graph) :
    0 ≤ (evaluateNonProprietaryFormat env g).value
    ∧ (evaluateNonProprietaryFormat env g).value ≤ 100 := by
  simp only [evaluateNonProprietaryFormat]
  exact value_bounds_ite _ _ (List.countP_le_length _) _ _ rfl rfl

theorem evaluateMachineReadableFormat_bounds (env : EvalEnv) (g : Graph) :
    0 ≤ (evaluateMachineReadableFormat env g).value
    ∧ (evaluateMachineReadableFormat env g).value ≤ 100 := by
  simp only [evaluateMachineReadableFormat]
  exact value_bounds_ite _ _ (List.countP_le_length _) _ _ rfl rfl

theorem evaluateLicenseAvailability_bounds (g : Graph) :
    0 ≤ (evaluateLicenseAvailability g).value
    ∧ (evaluateLicenseAvailability g).value ≤ 100 := by
  simp only [evaluateLicenseAvailability]
  exact value_bounds_ite _ _ (List.countP_le_length _) _ _ rfl rfl

theorem evaluateLicenseVocabulary_bounds (env : EvalEnv) (g : Graph) :
    0 ≤ (evaluateLicenseVocabulary env g).value
    ∧ (evaluateLicenseVocabulary env g).value ≤ 100 := by
  simp only [evaluateLicenseVocabulary]
  exact value_bounds_ite _ _ (List.countP_le_length _) _ _ rfl rfl

theorem evaluateAccessRightsAvailability_bounds (g : Graph) :
    0 ≤ (evaluateAccessRightsAvailability g).value
    ∧ (evaluateAccessRightsAvailability g).value ≤ 100 := by
  simp only [evaluateAccessRightsAvailability]
  exact value_bounds_ite _ _ (List.countP_le_length _) _ _ rfl rfl

theorem evaluateAccessRightsVocabulary_bounds (env : EvalEnv) (g : Graph) :
    0 ≤ (evaluateAccessRightsVocabulary env g).value
    ∧ (evaluateAccessRightsVocabulary env g).value ≤ 100 := by
  simp only [evaluateAccessRightsVocabulary]
  exact value_bounds_ite _ _ (List.countP_le_length _) _ _ rfl rfl

theorem evaluateContactPointAvailability_bounds (g : Graph) :
    0 ≤ (evaluateContactPointAvailability g).value
    ∧ (evaluateContactPointAvailability g).value ≤ 100 := by
  simp only [evaluateContactPointAvailability]
  exact value_bounds_ite _ _ (List.countP_le_length _) _ _ rfl rfl

theorem evaluatePublisherAvailability_bounds (g : Graph) :
    0 ≤ (evaluatePublisherAvailability g).value
    ∧ (evaluatePublisherAvailability g).value ≤ 100 := by
  simp only [evaluatePublisherAvailability]
  exact value_bounds_ite _ _ (List.countP_le_length _) _ _ rfl rfl

theorem evaluateByteSizeAvailability_bounds (g : Graph) :
    0 ≤ (evaluateByteSizeAvailability g).value
    ∧ (evaluateByteSizeAvailability g).value ≤ 100 := by
  simp only [evaluateByteSizeAvailability]
  exact value_bounds_ite _ _ (List.countP_le_length _) _ _ rfl rfl

theorem evaluateIssuedDateAvailability_bounds (g : Graph) :
    0 ≤ (evaluateIssuedDateAvailability g).value
    ∧ (evaluateIssuedDateAvailability g).value ≤ 100 := by
  simp only [evaluateIssuedDateAvailability]
  exact value_bounds_ite _ _ (List.countP_le_length _) _ _ rfl rfl

theorem evaluateModifiedDateAvailability_bounds (g : Graph) :
    0 ≤ (evaluateModifiedDateAvailability g).value
    ∧ (evaluateModifiedDateAvailability g).value ≤ 100 := by
  simp only [evaluateModifiedDateAvailability]
  exact value_bounds_ite _ _ (List.countP_le_length _) _ _ rfl rfl

theorem evaluateRightsAvailability_bounds (g : Graph) :
    0 ≤ (evaluateRightsAvailability g).value
    ∧ (evaluateRightsAvailability g).value ≤ 100 := by
  simp only [evaluateRightsAvailability]
  exact value_bounds_ite _ _ (List.countP_le_length _) _ _ rfl rfl

/-- Every dispatched strategy produces a value in `[0, 100]`. -/
theorem dispatchMetric_value_bounds (env : EvalEnv) (id : String) (g : Graph) :
    0 ≤ (dispatchMetric env id g).value ∧ (dispatchMetric env id g).value ≤ 100 := by
  unfold dispatchMetric
  by_cases h1 : id = "dcat_keyword"
  · rw [if_pos h1]; exact evaluateKeywordAvailability_bounds g
  rw [if_neg h1]
  by_cases h2 : id = "dcat_theme"
  · rw [if_pos h2]; exact evaluateThemeAvailability_bounds g
  rw [if_neg h2]
  by_cases h3 : id = "dct_spatial"
  · rw [if_pos h3]; exact evaluateSpatialAvailability_bounds g
  rw [if_neg h3]
  by_cases h4 : id = "dct_temporal"
  · rw [if_pos h4]; exact evaluateTemporalAvailability_bounds g
  rw [if_neg h4]
  by_cases h5 : id = "dcat_access_url_status"
  · rw [if_pos h5]; exact evaluateAccessURLStatus_bounds env g
  rw [if_neg h5]
  by_cases h6 : id = "dcat_download_url"
  · rw [if_pos h6]; exact evaluateDownloadURLAvailability_bounds g
  rw [if_neg h6]
  by_cases h7 : id = "dcat_download_url_status"
  · rw [if_pos h7]; exact evaluateDownloadURLStatus_bounds env g
  rw [if_neg h7]
  by_cases h8 : id = "dct_format"
  · rw [if_pos h8]; exact evaluateFormatAvailability_bounds g
  rw [if_neg h8]
  by_cases h9 : id = "dcat_media_type"
  · rw [if_pos h9]; exact evaluateMediaTypeAvailability_bounds g
  rw [if_neg h9]
  by_cases h10 : id = "dct_format_vocabulary" ∨ id = "dcat_media_type_vocabulary"
      ∨ id = "dct_format_vocabulary_nti_risp" ∨ id = "dcat_media_type_vocabulary_nti_risp"
  · rw [if_pos h10]; exact evaluateFormatMediaTypeVocabulary_bounds g
  rw [if_neg h10]
  by_cases h11 : id = "dct_format_nonproprietary"
  · rw [if_pos h11]; exact evaluateNonProprietaryFormat_bounds env g
  rw [if_neg h11]
  by_cases h12 : id = "dct_format_machine_readable"
  · rw [if_pos h12]; exact evaluateMachineReadableFormat_bounds env g
  rw [if_neg h12]
  by_cases h13 : id = "dcat_ap_compliance" ∨ id = "dcat_ap_es_compliance"
      ∨ id = "nti_risp_compliance"
  · rw [if_pos h13]; exact ⟨by norm_num, by norm_num⟩
  rw [if_neg h13]
  by_cases h14 : id = "dct_license" ∨ id = "dct_license_nti_risp"
  · rw [if_pos h14]; exact evaluateLicenseAvailability_bounds g
  rw [if_neg h14]
  by_cases h15 : id = "dct_license_vocabulary"
  · rw [if_pos h15]; exact evaluateLicenseVocabulary_bounds env g
  rw [if_neg h15]
  by_cases h16 : id = "dct_access_rights"
  · rw [if_pos h16]; exact evaluateAccessRightsAvailability_bounds g
  rw [if_neg h16]
  by_cases h17 : id = "dct_access_rights_vocabulary"
  · rw [if_pos h17]; exact evaluateAccessRightsVocabulary_bounds env g
  rw [if_neg h17]
  by_cases h18 : id = "dcat_contact_point"
  · rw [if_pos h18]; exact evaluateContactPointAvailability_bounds g
  rw [if_neg h18]
  by_cases h19 : id = "dct_publisher"
  · rw [if_pos h19]; exact evaluatePublisherAvailability_bounds g
  rw [if_neg h19]
  by_cases h20 : id = "dcat_byte_size"
  · rw [if_pos h20]; exact evaluateByteSizeAvailability_bounds g
  rw [if_neg h20]
  by_cases h21 : id = "dct_issued"
  · rw [if_pos h21]; exact evaluateIssuedDateAvailability_bounds g
  rw [if_neg h21]
  by_cases h22 : id = "dct_modified"
  · rw [if_pos h22]; exact evaluateModifiedDateAvailability_bounds g
  rw [if_neg h22]
  by_cases h23 : id = "dct_rights"
  · rw [if_pos h23]; exact evaluateRightsAvailability_bounds g
  rw [if_neg h23]
  exact ⟨le_refl 0, by norm_num⟩

/-- The `[0, 100]` invariant for every `evaluateMetric` outcome. -/
theorem evaluateMetric_value_bounds (env : EvalEnv) (cfg : MetricConfig) (g : Graph)
    (stats : DatasetStatistics) (profile : String) :
    0 ≤ (evaluateMetric env cfg g stats profile).value
    ∧ (evaluateMetric env cfg g stats profile).value ≤ 100 :=
  dispatchMetric_value_bounds env cfg.id g

-- ===== Dispatch reduction facts (one per `switch` case) =====

theorem dispatch_keyword (env : EvalEnv) (g : Graph) :
    dispatchMetric env "dcat_keyword" g = evaluateKeywordAvailability g := rfl

theorem dispatch_theme (env : EvalEnv) (g : Graph) :
    dispatchMetric env "dcat_theme" g = evaluateThemeAvailability g := rfl

theorem dispatch_spatial (env : EvalEnv) (g : Graph) :
    dispatchMetric env "dct_spatial" g = evaluateSpatialAvailability g := rfl

theorem dispatch_temporal (env : EvalEnv) (g : Graph) :
    dispatchMetric env "dct_temporal" g = evaluateTemporalAvailability g := rfl

theorem dispatch_accessUrlStatus (env : EvalEnv) (g : Graph) :
    dispatchMetric env "dcat_access_url_status" g = evaluateAccessURLStatus env g := rfl

theorem dispatch_downloadUrl (env : EvalEnv) (g : Graph) :
    dispatchMetric env "dcat_download_url" g = evaluateDownloadURLAvailability g := rfl

theorem dispatch_downloadUrlStatus (env : EvalEnv) (g : Graph) :
    dispatchMetric env "dcat_download_url_status" g = evaluateDownloadURLStatus env g := rfl

theorem dispatch_format (env : EvalEnv) (g : Graph) :
    dispatchMetric env "dct_format" g = evaluateFormatAvailability g := rfl

theorem dispatch_mediaType (env : EvalEnv) (g : Graph) :
    dispatchMetric env "dcat_media_type" g = evaluateMediaTypeAvailability g := rfl

theorem dispatch_formatVocabulary (env : EvalEnv) (g : Graph) :
    dispatchMetric env "dct_format_vocabulary" g = evaluateFormatMediaTypeVocabulary g := rfl

theorem dispatch_mediaTypeVocabulary (env : EvalEnv) (g : Graph) :
    dispatchMetric env "dcat_media_type_vocabulary" g = evaluateFormatMediaTypeVocabulary g := rfl

theorem dispatch_formatVocabularyNtiRisp (env : EvalEnv) (g : Graph) :
    dispatchMetric env "dct_format_vocabulary_nti_risp" g
      = evaluateFormatMediaTypeVocabulary g := rfl

theorem dispatch_mediaTypeVocabularyNtiRisp (env : EvalEnv) (g : Graph) :
    dispatchMetric env "dcat_media_type_vocabulary_nti_risp" g
      = evaluateFormatMediaTypeVocabulary g := rfl

theorem dispatch_formatNonproprietary (env : EvalEnv) (g : Graph) :
    dispatchMetric env "dct_format_nonproprietary" g = evaluateNonProprietaryFormat env g := rfl

theorem dispatch_formatMachineReadable (env : EvalEnv) (g : Graph) :
    dispatchMetric env "dct_format_machine_readable" g
      = evaluateMachineReadableFormat env g := rfl

theorem dispatch_license (env : EvalEnv) (g : Graph) :
    dispatchMetric env "dct_license" g = evaluateLicenseAvailability g := rfl

theorem dispatch_licenseNtiRisp (env : EvalEnv) (g : Graph) :
    dispatchMetric env "dct_license_nti_risp" g = evaluateLicenseAvailability g := rfl

theorem dispatch_licenseVocabulary (env : EvalEnv) (g : Graph) :
    dispatchMetric env "dct_license_vocabulary" g = evaluateLicenseVocabulary env g := rfl

theorem dispatch_accessRights (env : EvalEnv) (g : Graph) :
    dispatchMetric env "dct_access_rights" g = evaluateAccessRightsAvailability g := rfl

theorem dispatch_accessRightsVocabulary (env : EvalEnv) (g : Graph) :
    dispatchMetric env "dct_access_rights_vocabulary" g
      = evaluateAccessRightsVocabulary env g := rfl

theorem dispatch_contactPoint (env : EvalEnv) (g : Graph) :
    dispatchMetric env "dcat_contact_point" g = evaluateContactPointAvailability g := rfl

theorem dispatch_publisher (env : EvalEnv) (g : Graph) :
    dispatchMetric env "dct_publisher" g = evaluatePublisherAvailability g := rfl

theorem dispatch_byteSize (env : EvalEnv) (g : Graph) :
    dispatchMetric env "dcat_byte_size" g = evaluateByteSizeAvailability g := rfl

theorem dispatch_issued (env : EvalEnv) (g : Graph) :
    dispatchMetric env "dct_issued" g = evaluateIssuedDateAvailability g := rfl

theorem dispatch_modified (env : EvalEnv) (g : Graph) :
    dispatchMetric env "dct_modified" g = evaluateModifiedDateAvailability g := rfl

theorem dispatch_rights (env : EvalEnv) (g : Graph) :
    dispatchMetric env "dct_rights" g = evaluateRightsAvailability g := rfl

/-- `evaluateMetric` is the dispatched outcome wrapped with id, display
name and configured weight. -/
theorem evaluateMetric_eq_wrap (env : EvalEnv) (cfg : MetricConfig) (g : Graph)
    (stats : DatasetStatistics) (profile : String) :
    evaluateMetric env cfg g stats profile
      = ⟨cfg.id, metricName cfg.id, (dispatchMetric env cfg.id g).value, cfg.weight,
         (dispatchMetric env cfg.id g).passed, (dispatchMetric env cfg.id g).details⟩ := rfl

/-- Arithmetic of the dimension score formula. -/
theorem score_formula_bounds (ws tw maxS : ℚ) (hws0 : 0 ≤ ws) (hwsle : ws ≤ 100 * tw)
    (hmax : 0 ≤ maxS) :
    0 ≤ (if 0 < tw then ws / tw else 0) / 100 * maxS
    ∧ (if 0 < tw then ws / tw else 0) / 100 * maxS ≤ maxS := by
  split_ifs with h
  · have hpct : ws / tw ≤ 100 := (div_le_iff₀ h).mpr (by linarith)
    have hpct0 : 0 ≤ ws / tw := div_nonneg hws0 h.le
    constructor
    · positivity
    · have h1 : ws / tw / 100 ≤ 1 := by linarith
      exact mul_le_of_le_one_left hmax h1
  · constructor
    · simp
    · simpa using hmax

-- ===== C7: dimension scores stay within [0, maxScore] =====

/-- C7: with nonnegative metric weights and nonnegative dimension
maxScores, every dimension result's score satisfies
`0 ≤ score ≤ dimensionMaxScore`, resting on the `[0,100]` invariant of
metric values. -/
theorem dimension_score_in_range (env : EvalEnv) (g : Graph) (stats : DatasetStatistics)
    (pc : ProfileConfig) (profile : String)
    (hw : ∀ dimName c, c ∈ pc.metricsFor dimName → 0 ≤ c.weight)
    (hm : ∀ dimName, 0 ≤ dimMaxScore pc.dimensions dimName)
    (dimName : String) :
    0 ≤ (calculateDimension env g stats pc profile dimName).score
    ∧ (calculateDimension env g stats pc profile dimName).score
        ≤ dimMaxScore pc.dimensions dimName := by
  have hws0 : 0 ≤ ((pc.metricsFor dimName).map
      (fun c => (evaluateMetric env c g stats profile).value * c.weight)).sum := by
    apply List.sum_nonneg
    intro x hx
    obtain ⟨c, hc, rfl⟩ := List.mem_map.mp hx
    exact mul_nonneg (evaluateMetric_value_bounds env c g stats profile).1 (hw dimName c hc)
  have hwsle : ((pc.metricsFor dimName).map
      (fun c => (evaluateMetric env c g stats profile).value * c.weight)).sum
      ≤ 100 * ((pc.metricsFor dimName).map (fun c => c.weight)).sum := by
    calc ((pc.metricsFor dimName).map
            (fun c => (evaluateMetric env c g stats profile).value * c.weight)).sum
        ≤ ((pc.metricsFor dimName).map (fun c => 100 * c.weight)).sum := by
          apply List.sum_le_sum
          intro c hc
          exact mul_le_mul_of_nonneg_right
            (evaluateMetric_value_bounds env c g stats profile).2 (hw dimName c hc)
      _ = 100 * ((pc.metricsFor dimName).map (fun c => c.weight)).sum := by
          rw [← List.sum_map_mul_left]
  exact score_formula_bounds _ _ _ hws0 hwsle (hm dimName)

/-- C7 witness: the sample profile (weight 30, maxScore 60) on the
keyword graph stays within range. -/
theorem dimension_score_in_range_witness :
    0 ≤ (calculateDimension envAllTrue kwGraph (calculateStatistics kwGraph)
        samplePC "dcat_ap_es" "findability").score
    ∧ (calculateDimension envAllTrue kwGraph (calculateStatistics kwGraph)
        samplePC "dcat_ap_es" "findability").score
        ≤ dimMaxScore samplePC.dimensions "findability" := by
  apply dimension_score_in_range
  · intro dName c hc
    by_cases h : dName = "findability"
    · simp [samplePC, h] at hc
      subst hc
      norm_num
    · simp [samplePC, h] at hc
  · intro dName
    simp only [samplePC, dimMaxScore]
    split_ifs <;> norm_num

-- ===== C6: zero eligible entities never yields NaN =====

/-- C6: for every registry metric with an eligible-entity class (every id
except the static compliance markers), a graph with no eligible entities
of that class yields exactly `value = 0`, `passed = false` and the "no
entities found" detail — a total result, never `NaN` and never a thrown
error. -/
theorem metric_no_entities_zero (env : EvalEnv) (cfg : MetricConfig) (g : Graph)
    (stats : DatasetStatistics) (profile : String) (k : EntityKind)
    (hk : metricEntityKind cfg.id = some k)
    (he : eligibleEntities g k = []) :
    evaluateMetric env cfg g stats profile
      = ⟨cfg.id, metricName cfg.id, 0, cfg.weight, false, noEntitiesDetail k⟩ := by
  unfold metricEntityKind at hk
  split_ifs at hk with hd hdist
  · obtain rfl : k = .dataset := (Option.some.inj hk).symm
    have he' : getSubjectsByType g (dcat "Dataset") = [] := he
    simp only [datasetMetricIds, List.mem_cons, List.not_mem_nil, or_false] at hd
    rw [evaluateMetric_eq_wrap]
    rcases hd with h|h|h|h|h|h|h|h|h|h
    · rw [h, dispatch_keyword]
      simp only [evaluateKeywordAvailability]
      rw [he']
      rfl
    · rw [h, dispatch_theme]
      simp only [evaluateThemeAvailability]
      rw [he']
      rfl
    · rw [h, dispatch_spatial]
      simp only [evaluateSpatialAvailability]
      rw [he']
      rfl
    · rw [h, dispatch_temporal]
      simp only [evaluateTemporalAvailability]
      rw [he']
      rfl
    · rw [h, dispatch_accessRights]
      simp only [evaluateAccessRightsAvailability]
      rw [he']
      rfl
    · rw [h, dispatch_accessRightsVocabulary]
      simp only [evaluateAccessRightsVocabulary]
      rw [he']
      rfl
    · rw [h, dispatch_contactPoint]
      simp only [evaluateContactPointAvailability]
      rw [he']
      rfl
    · rw [h, dispatch_publisher]
      simp only [evaluatePublisherAvailability]
      rw [he']
      rfl
    · rw [h, dispatch_issued]
      simp only [evaluateIssuedDateAvailability]
      rw [he']
      rfl
    · rw [h, dispatch_modified]
      simp only [evaluateModifiedDateAvailability]
      rw [he']
      rfl
  · obtain rfl : k = .distribution := (Option.some.inj hk).symm
    have he' : getSubjectsByType g (dcat "Distribution") = [] := he
    simp only [distributionMetricIds, List.mem_cons, List.not_mem_nil, or_false] at hdist
    rw [evaluateMetric_eq_wrap]
    rcases hdist with h|h|h|h|h|h|h|h|h|h|h|h|h|h|h|h
    · rw [h, dispatch_accessUrlStatus]
      simp only [evaluateAccessURLStatus]
      rw [he']
      rfl
    · rw [h, dispatch_downloadUrl]
      simp only [evaluateDownloadURLAvailability]
      rw [he']
      rfl
    · rw [h, dispatch_downloadUrlStatus]
      simp only [evaluateDownloadURLStatus]
      rw [he']
      rfl
    · rw [h, dispatch_format]
      simp only [evaluateFormatAvailability]
      rw [he']
      rfl
    · rw [h, dispatch_mediaType]
      simp only [evaluateMediaTypeAvailability]
      rw [he']
      rfl
    · rw [h, dispatch_formatVocabulary]
      simp only [evaluateFormatMediaTypeVocabulary]
      rw [he']
      rfl
    · rw [h, dispatch_mediaTypeVocabulary]
      simp only [evaluateFormatMediaTypeVocabulary]
      rw [he']
      rfl
    · rw [h, dispatch_formatVocabularyNtiRisp]
      simp only [evaluateFormatMediaTypeVocabulary]
      rw [he']
      rfl
    · rw [h, dispatch_mediaTypeVocabularyNtiRisp]
      simp only [evaluateFormatMediaTypeVocabulary]
      rw [he']
      rfl
    · rw [h, dispatch_formatNonproprietary]
      simp only [evaluateNonProprietaryFormat]
      rw [he']
      rfl
    · rw [h, dispatch_formatMachineReadable]
      simp only [evaluateMachineReadableFormat]
      rw [he']
      rfl
    · rw [h, dispatch_license]
      simp only [evaluateLicenseAvailability]
      rw [he']
      rfl
    · rw [h, dispatch_licenseNtiRisp]
      simp only [evaluateLicenseAvailability]
      rw [he']
      rfl
    · rw [h, dispatch_licenseVocabulary]
      simp only [evaluateLicenseVocabulary]
      rw [he']
      rfl
    · rw [h, dispatch_byteSize]
      simp only [evaluateByteSizeAvailability]
      rw [he']
      rfl
    · rw [h, dispatch_rights]
      simp only [evaluateRightsAvailability]
      rw [he']
      rfl

/-- C6 witness: the license metric (a distribution metric) on a graph with
datasets but no distributions, and the keyword metric (a dataset metric)
on the empty graph. -/
theorem metric_no_entities_zero_witness :
    evaluateMetric envAllTrue ⟨"dct_license", 20, "dct:license"⟩ kwGraph
        (calculateStatistics kwGraph) "dcat_ap_es"
      = ⟨"dct_license", metricName "dct_license", 0, 20, false,
         noEntitiesDetail .distribution⟩
    ∧ evaluateMetric envAllTrue ⟨"dcat_keyword", 30, "dcat:keyword"⟩ []
        (calculateStatistics []) "dcat_ap_es"
      = ⟨"dcat_keyword", metricName "dcat_keyword", 0, 30, false,
         noEntitiesDetail .dataset⟩ :=
  ⟨metric_no_entities_zero envAllTrue ⟨"dct_license", 20, "dct:license"⟩ kwGraph
      (calculateStatistics kwGraph) "dcat_ap_es" .distribution (by decide) (by decide),
   metric_no_entities_zero envAllTrue ⟨"dcat_keyword", 30, "dcat:keyword"⟩ []
      (calculateStatistics []) "dcat_ap_es" .dataset (by decide) (by decide)⟩

-- ===== C8: unknown metric ids degrade gracefully =====

/-- C8: for every metric id outside the registry, `evaluateMetric`
returns `value = 0`, `passed = false` with the `metricNotImplemented`
detail key (namespaced as `metricDetails.metricNotImplemented` in the
source), for every graph and statistics input, without an error. -/
theorem metric_unknown_id_graceful (env : EvalEnv) (cfg : MetricConfig) (g : Graph)
    (stats : DatasetStatistics) (profile : String)
    (h : cfg.id ∉ knownMetricIds) :
    evaluateMetric env cfg g stats profile
      = ⟨cfg.id, metricName cfg.id, 0, cfg.weight, false,
         ⟨"metricDetails.metricNotImplemented", .idParam cfg.id⟩⟩ := by
  have hne : ∀ s, s ∈ knownMetricIds → cfg.id ≠ s := fun s hs e => h (e ▸ hs)
  rw [evaluateMetric_eq_wrap]
  have hd : dispatchMetric env cfg.id g
      = ⟨0, false, ⟨"metricDetails.metricNotImplemented", .idParam cfg.id⟩⟩ := by
    unfold dispatchMetric
    rw [if_neg (hne _ (by decide)), if_neg (hne _ (by decide)), if_neg (hne _ (by decide)),
      if_neg (hne _ (by decide)), if_neg (hne _ (by decide)), if_neg (hne _ (by decide)),
      if_neg (hne _ (by decide)), if_neg (hne _ (by decide)), if_neg (hne _ (by decide)),
      if_neg (by
        push_neg
        exact ⟨hne _ (by decide), hne _ (by decide), hne _ (by decide), hne _ (by decide)⟩),
      if_neg (hne _ (by decide)), if_neg (hne _ (by decide)),
      if_neg (by
        push_neg
        exact ⟨hne _ (by decide), hne _ (by decide), hne _ (by decide)⟩),
      if_neg (by
        push_neg
        exact ⟨hne _ (by decide), hne _ (by decide)⟩),
      if_neg (hne _ (by decide)), if_neg (hne _ (by decide)), if_neg (hne _ (by decide)),
      if_neg (hne _ (by decide)), if_neg (hne _ (by decide)), if_neg (hne _ (by decide)),
      if_neg (hne _ (by decide)), if_neg (hne _ (by decide)), if_neg (hne _ (by decide))]
  rw [hd]

/-- C8 witness: an id absent from the registry on the keyword graph. -/
theorem metric_unknown_id_graceful_witness :
    evaluateMetric envAllTrue ⟨"not_a_metric", 1, "x"⟩ kwGraph
        (calculateStatistics kwGraph) "dcat_ap_es"
      = ⟨"not_a_metric", metricName "not_a_metric", 0, 1, false,
         ⟨"metricDetails.metricNotImplemented", .idParam "not_a_metric"⟩⟩ :=
  metric_unknown_id_graceful envAllTrue ⟨"not_a_metric", 1, "x"⟩ kwGraph
    (calculateStatistics kwGraph) "dcat_ap_es" (by decide)

-- ===== Counting lemma shared by the URL-metric claims =====

/-- The length of a `filterMap` is the count of inputs it keeps. -/
theorem length_filterMap_eq_countP {α β : Type} (f : α → Option β) (l : List α) :
    (l.filterMap f).length = l.countP (fun a => (f a).isSome) := by
  induction l with
  | nil => rfl
  | cons x xs ih =>
    rw [List.filterMap_cons, List.countP_cons]
    cases hfx : f x
    · simp [hfx, ih]
    · simp [hfx, ih]

-- ===== C4: download-URL status degrades to existence — corrected =====

/-- C4 counterexample: with URL checking disabled, a distribution whose
only download URL is `ftp://…` is counted by the download-URL
availability metric (value 100) but yields 0 from the download-URL
status metric, which collects only `http(s)` URLs and returns its
"no download URLs" early result before the disabled-check branch. -/
theorem download_status_existence_counterexample :
    (evaluateMetric envDisabled ⟨"dcat_download_url_status", 1, "dcat:downloadURL"⟩ ftpGraph
        (calculateStatistics ftpGraph) "dcat_ap_es").value = 0
    ∧ (evaluateMetric envDisabled ⟨"dcat_download_url", 1, "dcat:downloadURL"⟩ ftpGraph
        (calculateStatistics ftpGraph) "dcat_ap_es").value = 100
    ∧ (0 : ℚ) ≠ 100 := by
  refine ⟨rfl, ?_, by norm_num⟩
  have hv : (evaluateMetric envDisabled ⟨"dcat_download_url", 1, "dcat:downloadURL"⟩ ftpGraph
      (calculateStatistics ftpGraph) "dcat_ap_es").value
      = (evaluateDownloadURLAvailability ftpGraph).value := rfl
  have hc : (getSubjectsByType ftpGraph (dcat "Distribution")).countP
      (fun dist => truthy (getObjectValue ftpGraph dist (dcat "downloadURL"))) = 1 := by decide
  have hl : (getSubjectsByType ftpGraph (dcat "Distribution")).length = 1 := by decide
  rw [hv]
  simp only [evaluateDownloadURLAvailability]
  rw [if_neg (by rw [hl]; exact one_ne_zero)]
  dsimp only
  rw [hc, hl]
  norm_num

/-- C4 (amended): with URL checking disabled, the download-URL status
metric equals the download-URL availability metric on every graph in
which each distribution's first download URL value is absent, empty, or
`http(s)`-prefixed (the source collects only `http(s)` URLs, while the
availability metric counts any truthy value). -/
theorem download_status_existence_agree (env : EvalEnv) (g : Graph)
    (stats : DatasetStatistics) (profile : String) (w1 w2 : ℚ) (p1 p2 : String)
    (hdis : env.urlCheckEnabled = false)
    (hurl : ∀ dist ∈ getSubjectsByType g (dcat "Distribution"),
      httpIfTruthy (getObjectValue g dist (dcat "downloadURL")) = true) :
    (evaluateMetric env ⟨"dcat_download_url_status", w1, p1⟩ g stats profile).value
      = (evaluateMetric env ⟨"dcat_download_url", w2, p2⟩ g stats profile).value := by
  have hv1 : (evaluateMetric env ⟨"dcat_download_url_status", w1, p1⟩ g stats profile).value
      = (evaluateDownloadURLStatus env g).value := rfl
  have hv2 : (evaluateMetric env ⟨"dcat_download_url", w2, p2⟩ g stats profile).value
      = (evaluateDownloadURLAvailability g).value := rfl
  rw [hv1, hv2]
  have hcount : (collectHttpUrls g (getSubjectsByType g (dcat "Distribution"))
        (dcat "downloadURL")).length
      = (getSubjectsByType g (dcat "Distribution")).countP
          (fun dist => truthy (getObjectValue g dist (dcat "downloadURL"))) := by
    rw [collectHttpUrls, length_filterMap_eq_countP]
    apply List.countP_congr
    intro dist hd
    have hh := hurl dist hd
    cases ho : getObjectValue g dist (dcat "downloadURL") with
    | none => simp [ho, truthy]
    | some u =>
      rw [ho] at hh
      have hhu : isHttpUrl u = !(u == "") := by
        simpa [httpIfTruthy] using hh
      cases hhttp : isHttpUrl u
      · rw [hhttp] at hhu
        simp [ho, hhttp, truthy, ← hhu]
      · rw [hhttp] at hhu
        simp [ho, hhttp, truthy, ← hhu]
  simp only [evaluateDownloadURLStatus, evaluateDownloadURLAvailability]
  by_cases hd0 : (getSubjectsByType g (dcat "Distribution")).length = 0
  · rw [if_pos hd0, if_pos hd0]
  · rw [if_neg hd0, if_neg hd0]
    by_cases hu0 : (collectHttpUrls g (getSubjectsByType g (dcat "Distribution"))
        (dcat "downloadURL")).length = 0
    · rw [if_pos hu0]
      dsimp only
      rw [← hcount, hu0]
      norm_num
    · rw [if_neg hu0, if_pos (by rw [hdis]; rfl)]
      dsimp only
      rw [hcount]

/-- C4 witness: one distribution with an `http` download URL, URL checking
disabled — the two metrics agree. -/
theorem download_status_existence_agree_witness :
    (evaluateMetric envDisabled ⟨"dcat_download_url_status", 1, "p1"⟩ httpGraph
        (calculateStatistics httpGraph) "dcat_ap_es").value
      = (evaluateMetric envDisabled ⟨"dcat_download_url", 1, "p2"⟩ httpGraph
        (calculateStatistics httpGraph) "dcat_ap_es").value :=
  download_status_existence_agree envDisabled httpGraph (calculateStatistics httpGraph)
    "dcat_ap_es" 1 1 "p1" "p2" rfl (by decide)

-- ===== C5: the two reachability denominators — corrected =====

/-- C5 counterexample: with URL checking enabled and every probed URL
reported accessible, two distributions with download URLs (one `http`,
one `ftp`) give the status metric the value 100, while the claimed
formula — 100 × accessible count (1) / distributions *having* a download
URL (2) — is 50: the code divides by the count of `http(s)`-prefixed
download URLs, not of all download URLs. -/
theorem reachability_denominator_counterexample :
    (evaluateMetric envAllTrue ⟨"dcat_download_url_status", 1, "dcat:downloadURL"⟩ mixedGraph
        (calculateStatistics mixedGraph) "dcat_ap_es").value = 100
    ∧ (getSubjectsByType mixedGraph (dcat "Distribution")).countP
        (fun dist => truthy (getObjectValue mixedGraph dist (dcat "downloadURL"))) = 2
    ∧ (collectHttpUrls mixedGraph (getSubjectsByType mixedGraph (dcat "Distribution"))
        (dcat "downloadURL")).countP envAllTrue.probe = 1
    ∧ (100 : ℚ) ≠ 100 * 1 / 2 := by
  refine ⟨?_, by decide, by decide, by norm_num⟩
  have hv : (evaluateMetric envAllTrue ⟨"dcat_download_url_status", 1, "dcat:downloadURL"⟩
      mixedGraph (calculateStatistics mixedGraph) "dcat_ap_es").value
      = (evaluateDownloadURLStatus envAllTrue mixedGraph).value := rfl
  have hc : (collectHttpUrls mixedGraph (getSubjectsByType mixedGraph (dcat "Distribution"))
      (dcat "downloadURL")).countP envAllTrue.probe = 1 := by decide
  have hl : (collectHttpUrls mixedGraph (getSubjectsByType mixedGraph (dcat "Distribution"))
      (dcat "downloadURL")).length = 1 := by decide
  rw [hv]
  simp only [evaluateDownloadURLStatus]
  rw [if_neg (by decide), if_neg (by rw [hl]; exact one_ne_zero), if_neg (by decide)]
  dsimp only
  rw [hc, hl]
  norm_num

/-- C5 (amended): with URL checking enabled and at least one
distribution, the access-URL status value is
100 × (accessible count) / (total distributions), while the download-URL
status value is 100 × (accessible count) / (count of distributions with
an `http(s)`-prefixed download URL) — 0 when no such download URL exists.
The two metrics use different denominators, but the download denominator
counts only the `http(s)` download URLs the code collects. -/
theorem reachability_metrics_denominators (env : EvalEnv) (g : Graph)
    (stats : DatasetStatistics) (profile : String) (w1 w2 : ℚ) (p1 p2 : String)
    (hen : env.urlCheckEnabled = true)
    (hne : getSubjectsByType g (dcat "Distribution") ≠ []) :
    (evaluateMetric env ⟨"dcat_access_url_status", w1, p1⟩ g stats profile).value
      = 100 * ((collectHttpUrls g (getSubjectsByType g (dcat "Distribution"))
            (dcat "accessURL")).countP env.probe : ℚ)
          / ((getSubjectsByType g (dcat "Distribution")).length : ℚ)
    ∧ (evaluateMetric env ⟨"dcat_download_url_status", w2, p2⟩ g stats profile).value
      = (if (collectHttpUrls g (getSubjectsByType g (dcat "Distribution"))
              (dcat "downloadURL")).length = 0
          then 0
          else 100 * ((collectHttpUrls g (getSubjectsByType g (dcat "Distribution"))
                (dcat "downloadURL")).countP env.probe : ℚ)
            / ((collectHttpUrls g (getSubjectsByType g (dcat "Distribution"))
                (dcat "downloadURL")).length : ℚ)) := by
  have hlen : (getSubjectsByType g (dcat "Distribution")).length ≠ 0 :=
    fun h0 => hne (List.length_eq_zero.mp h0)
  constructor
  · have hv : (evaluateMetric env ⟨"dcat_access_url_status", w1, p1⟩ g stats profile).value
        = (evaluateAccessURLStatus env g).value := rfl
    rw [hv]
    simp only [evaluateAccessURLStatus]
    rw [if_neg hlen]
    by_cases hu0 : (collectHttpUrls g (getSubjectsByType g (dcat "Distribution"))
        (dcat "accessURL")).length = 0
    · rw [if_pos hu0]
      rw [List.length_eq_zero.mp hu0]
      dsimp only
      norm_num
    · rw [if_neg hu0, if_neg (by rw [hen]; exact fun h => Bool.false_ne_true h)]
      dsimp only
      ring
  · have hv : (evaluateMetric env ⟨"dcat_download_url_status", w2, p2⟩ g stats profile).value
        = (evaluateDownloadURLStatus env g).value := rfl
    rw [hv]
    simp only [evaluateDownloadURLStatus]
    rw [if_neg hlen]
    by_cases hu0 : (collectHttpUrls g (getSubjectsByType g (dcat "Distribution"))
        (dcat "downloadURL")).length = 0
    · rw [if_pos hu0, if_pos hu0]
    · rw [if_neg hu0, if_neg hu0, if_neg (by rw [hen]; exact fun h => Bool.false_ne_true h)]
      dsimp only
      ring

/-- C5 witness: one distribution with `http` access and download URLs,
checking enabled, every probe accessible. -/
theorem reachability_metrics_denominators_witness :
    (evaluateMetric envAllTrue ⟨"dcat_access_url_status", 1, "p1"⟩ httpGraph
        (calculateStatistics httpGraph) "dcat_ap_es").value
      = 100 * ((collectHttpUrls httpGraph (getSubjectsByType httpGraph (dcat "Distribution"))
            (dcat "accessURL")).countP envAllTrue.probe : ℚ)
          / ((getSubjectsByType httpGraph (dcat "Distribution")).length : ℚ)
    ∧ (evaluateMetric envAllTrue ⟨"dcat_download_url_status", 1, "p2"⟩ httpGraph
        (calculateStatistics httpGraph) "dcat_ap_es").value
      = (if (collectHttpUrls httpGraph (getSubjectsByType httpGraph (dcat "Distribution"))
              (dcat "downloadURL")).length = 0
          then 0
          else 100 * ((collectHttpUrls httpGraph
                (getSubjectsByType httpGraph (dcat "Distribution"))
                (dcat "downloadURL")).countP envAllTrue.probe : ℚ)
            / ((collectHttpUrls httpGraph (getSubjectsByType httpGraph (dcat "Distribution"))
                (dcat "downloadURL")).length : ℚ)) :=
  reachability_metrics_denominators envAllTrue httpGraph (calculateStatistics httpGraph)
    "dcat_ap_es" 1 1 "p1" "p2" rfl (by decide)
-- ===== Association-list lemmas for the URL cache =====

/-- Replacing every entry keyed `k` rewrites the retrieved value. -/
theorem assocGet_map_replace {β : Type} (l : List (String × β)) (k : String) (v : β) :
    assocGet (l.map (fun p => if p.1 = k then (k, v) else p)) k
      = (assocGet l k).map (fun _ => v) := by
  induction l with
  | nil => rfl
  | cons x xs ih =>
    obtain ⟨a, b⟩ := x
    by_cases ha : a = k
    · subst ha
      dsimp only [List.map_cons]
      rw [if_pos rfl]
      simp only [assocGet]
      simp
    · dsimp only [List.map_cons]
      rw [if_neg ha]
      simp only [assocGet]
      rw [if_neg ha, if_neg ha]
      exact ih

/-- A key present somewhere in the list is retrieved. -/
theorem assocGet_isSome_of_any {β : Type} (l : List (String × β)) (k : String)
    (h : l.any (fun p => decide (p.1 = k)) = true) : (assocGet l k).isSome = true := by
  induction l with
  | nil => simp at h
  | cons x xs ih =>
    obtain ⟨a, b⟩ := x
    by_cases ha : a = k
    · subst ha
      simp only [assocGet]
      simp
    · have h' : xs.any (fun p => decide (p.1 = k)) = true := by
        simp only [List.any_cons, Bool.or_eq_true] at h
        rcases h with h1 | h2
        · exact absurd (of_decide_eq_true h1) ha
        · exact h2
      simp only [assocGet]
      rw [if_neg ha]
      exact ih h'

/-- A key never retrieved is absent; appending it makes it retrievable. -/
theorem assocGet_append_missing {β : Type} (l : List (String × β)) (k : String) (v : β)
    (h : assocGet l k = none) :
    assocGet (l ++ [(k, v)]) k = some v := by
  induction l with
  | nil => simp [assocGet]
  | cons x xs ih =>
    obtain ⟨a, b⟩ := x
    by_cases ha : a = k
    · simp [assocGet, ha] at h
    · simp only [List.cons_append, assocGet, ha, if_false] at h ⊢
      exact ih h

/-- If no key matches, retrieval fails. -/
theorem assocGet_none_of_any_false {β : Type} (l : List (String × β)) (k : String)
    (h : l.any (fun p => decide (p.1 = k)) = false) :
    assocGet l k = none := by
  induction l with
  | nil => rfl
  | cons x xs ih =>
    obtain ⟨a, b⟩ := x
    simp only [List.any_cons, Bool.or_eq_false_iff] at h
    have ha : ¬(a = k) := by simpa using h.1
    simp only [assocGet, ha, if_false]
    exact ih h.2

/-- Filtering keeps a retrieved entry whose predicate holds. -/
theorem assocGet_filter_of_kept {β : Type} (l : List (String × β)) (k : String) (e : β)
    (p : String × β → Bool) (h : assocGet l k = some e) (hp : p (k, e) = true) :
    assocGet (l.filter p) k = some e := by
  induction l with
  | nil => simp [assocGet] at h
  | cons x xs ih =>
    obtain ⟨a, b⟩ := x
    by_cases ha : a = k
    · subst ha
      have hb : b = e := by simpa [assocGet] using h
      subst hb
      rw [List.filter_cons, if_pos hp]
      simp [assocGet]
    · have h' : assocGet xs k = some e := by simpa [assocGet, ha] using h
      rw [List.filter_cons]
      cases hpx : p (a, b)
      · simpa using ih h'
      · simp only [if_pos rfl]
        simp only [assocGet, ha, if_false]
        exact ih h'

/-- `Map.set` semantics of `cacheSet`: the set key maps to the new entry. -/
theorem assocGet_cacheSet (cache : UrlCache) (url : String) (r : CheckUrlResponse) (ts : ℤ) :
    assocGet (cacheSet cache url r ts) url = some (r, ts) := by
  unfold cacheSet
  split_ifs with h
  · rw [assocGet_map_replace]
    obtain ⟨e, he⟩ := Option.isSome_iff_exists.mp (assocGet_isSome_of_any cache url h)
    rw [he]
    rfl
  · exact assocGet_append_missing cache url (r, ts)
      (assocGet_none_of_any_false cache url (by
        cases hb : cache.any (fun p => decide (p.1 = url)) with
        | false => rfl
        | true => exact absurd hb h))

/-- The probe-and-store tail of a cache miss: returns the fresh probe
result, flags the network call, and leaves the fresh entry (timestamped
`now`) retrievable even after the lazy TTL sweep. -/
theorem cacheMissProbe_spec (probe : String → CheckUrlResponse) (now : ℤ) (url : String)
    (cache : UrlCache) :
    (cacheMissProbe probe now url cache).1 = probe url
    ∧ (cacheMissProbe probe now url cache).2.2 = true
    ∧ assocGet (cacheMissProbe probe now url cache).2.1 url
        = some (probe url, now) := by
  refine ⟨rfl, rfl, ?_⟩
  unfold cacheMissProbe
  dsimp only
  split_ifs with h
  · apply assocGet_filter_of_kept
    · exact assocGet_cacheSet cache url (probe url) now
    · have hno : ¬(now < now - CACHE_TTL) := by unfold CACHE_TTL; omega
      simpa using hno
  · exact assocGet_cacheSet cache url (probe url) now

-- ===== C9: the 5-minute URL result cache =====

/-- C9: a cache entry younger than the TTL is returned unchanged with no
network probe; otherwise `checkUrlStatusCached` probes, returns the fresh
result and stores it under the current timestamp. -/
theorem checkUrlStatusCached_spec (probe : String → CheckUrlResponse) (now : ℤ)
    (url : String) (cache : UrlCache) :
    (∀ r ts, assocGet cache url = some (r, ts) → now - ts < CACHE_TTL →
      checkUrlStatusCached probe now url cache = (r, cache, false))
    ∧ ((∀ r ts, assocGet cache url = some (r, ts) → ¬(now - ts < CACHE_TTL)) →
      (checkUrlStatusCached probe now url cache).1 = probe url
      ∧ (checkUrlStatusCached probe now url cache).2.2 = true
      ∧ assocGet (checkUrlStatusCached probe now url cache).2.1 url
          = some (probe url, now)) := by
  constructor
  · intro r ts hl htl
    unfold checkUrlStatusCached
    rw [hl]
    dsimp only
    rw [if_pos htl]
  · intro hmiss
    unfold checkUrlStatusCached
    cases hl : assocGet cache url with
    | none => exact cacheMissProbe_spec probe now url cache
    | some c =>
      dsimp only
      rw [if_neg (hmiss c.1 c.2 (by rw [hl]))]
      exact cacheMissProbe_spec probe now url cache

/-- C9 witness: a fresh hit returns the stored result without probing; a
miss on the empty cache probes, reports it, and stores at `now`. -/
theorem checkUrlStatusCached_spec_witness :
    checkUrlStatusCached probeFresh 2000 "http://cached.example/x" cacheOne
      = (storedResult, cacheOne, false)
    ∧ (checkUrlStatusCached probeFresh 2000 "http://new.example/y" []).1
        = probeFresh "http://new.example/y"
    ∧ (checkUrlStatusCached probeFresh 2000 "http://new.example/y" []).2.2 = true
    ∧ assocGet (checkUrlStatusCached probeFresh 2000 "http://new.example/y" []).2.1
        "http://new.example/y"
      = some (probeFresh "http://new.example/y", 2000) := by
  refine ⟨?_, ?_⟩
  · exact (checkUrlStatusCached_spec probeFresh 2000 "http://cached.example/x" cacheOne).1
      storedResult 1000 (by decide) (by decide)
  · exact (checkUrlStatusCached_spec probeFresh 2000 "http://new.example/y" []).2
      (fun r ts h => nomatch h)

-- ===== C10: the batch route's size limit =====

/-- C10: a batch request with more than 50 URLs is rejected whole with
status 400 and no URL is probed (no prefix truncation); an empty `urls`
array succeeds with an empty results list. -/
theorem put_batch_limit (probe : String → ℕ → CheckUrlResponse) (body : PutRequest) :
    (∀ urls, body.urls = some urls → urls.length > 50 →
      putCheckUrlStatus probe body
        = ⟨400, .errorMsg "Maximum batch size is 50 URLs", []⟩)
    ∧ (body.urls = some [] →
      putCheckUrlStatus probe body = ⟨200, .results [], []⟩) := by
  constructor
  · intro urls hu hlen
    unfold putCheckUrlStatus
    rw [hu]
    dsimp only
    rw [if_neg (by omega), if_pos hlen]
  · intro hu
    unfold putCheckUrlStatus
    rw [hu]
    rfl

/-- C10 witness: 51 URLs are rejected with 400 and nothing probed; the
empty batch answers 200 with no results. -/
theorem put_batch_limit_witness :
    putCheckUrlStatus probeBatch body51
      = ⟨400, .errorMsg "Maximum batch size is 50 URLs", []⟩
    ∧ putCheckUrlStatus probeBatch ⟨some [], none⟩ = ⟨200, .results [], []⟩ :=
  ⟨(put_batch_limit probeBatch body51).1 _ rfl (by decide),
   (put_batch_limit probeBatch ⟨some [], none⟩).2 rfl⟩

end MQA
